import Mathlib

/-!
# TravelMate Pro: real-time collaborative planning

Verification development for `api/collaboration/real-time-planning.js`
(the request handler and `syncChanges`) and for the synchronization engine
behind `CollaborationService.applyChanges`.

The handler and `syncChanges` are embedded from the JavaScript source.  The
module `lib/services/collaboration` is not among the sources; the merge step
it provides is modelled from the specification (sections 3, 4.1 and 4.2) and
every definition modelled that way says so in its doc comment.
-/

namespace TravelMate

/-! ## Data model (specification, section 3) -/

/-- Role of a participant: `role ∈ {owner, editor, viewer}`. -/
inductive Role
  | owner
  | editor
  | viewer
  deriving DecidableEq, Repr

/-- Session status: `one of {active, closed}`. -/
inductive Status
  | active
  | closed
  deriving DecidableEq, Repr

/-- Kind of an element-level edit: insert, update or delete.  `other` stands
for any kind string a client may send that is none of the three. -/
inductive OpKind
  | insert
  | update
  | delete
  | other (tag : String)
  deriving DecidableEq, Repr

/-- One element-level edit, addressed by element identifier. -/
structure Operation where
  kind : OpKind
  elementId : String
  content : String
  deriving DecidableEq, Repr

/-- The `changes` value of a `sync_changes` request: the version the submitter
last observed and the ordered sequence of edits.  The session and the
submitter travel as separate arguments (`sessionId`, `userId`). -/
structure Change where
  baseVersion : Nat
  operations : List Operation
  deriving DecidableEq, Repr

/-- An addressable element of the itinerary document. -/
structure Element where
  id : String
  content : String
  deriving DecidableEq, Repr

/-- A participant record; `joinedAt` is a timestamp and is not modelled. -/
structure Participant where
  userId : String
  role : Role
  deriving DecidableEq, Repr

/-- Modelled from the spec: the session record of section 3 (`id`,
`createdBy`, `participants`, `version`, `document`, `status`); the stored
session type of `lib/services/collaboration` is missing from the sources.
`log` is "the data needed to detect conflicts at the next submission": one
entry `(v, elementId)` for every operation applied by the merge that produced
version `v`.  The timestamps `createdAt` and `lastActivityAt` are left out. -/
structure Session where
  id : String
  createdBy : String
  participants : List Participant
  version : Nat
  document : List Element
  status : Status
  log : List (Nat × String)
  deriving DecidableEq, Repr

/-- Error taxonomy of section 7 restricted to change submission, plus
`external` for an error raised by a collaborator outside the engine (the
transport behind `RealtimeService`). -/
inductive Failure
  | permissionDenied
  | malformedChange
  | invalidBaseVersion
  | sessionClosed
  | external (message : String)
  deriving DecidableEq, Repr

deriving instance DecidableEq for Except

/-- The `message` property of a thrown error. -/
def Failure.message : Failure → String
  | .permissionDenied => "PermissionDenied"
  | .malformedChange => "MalformedChange"
  | .invalidBaseVersion => "InvalidBaseVersion"
  | .sessionClosed => "SessionClosed"
  | .external m => m

/-- Why an operation was not applied.  The specification names one cause:
the target element was modified since the submitter's base version. -/
inductive ConflictReason
  | concurrentModification
  deriving DecidableEq, Repr

/-- One entry of the conflict report: `{operation, reason}`. -/
structure Conflict where
  operation : Operation
  reason : ConflictReason
  deriving DecidableEq, Repr

/-- The value `syncChanges` receives from `CollaborationService.applyChanges`
and reads as `result.changes`, `result.conflicts`, `result.version`: the
Synchronizer's output contract `{newVersion, appliedOperations, conflicts}`
under the field names the source uses. -/
structure MergeResult where
  changes : List Operation
  conflicts : List Conflict
  version : Nat
  deriving DecidableEq, Repr

/-! ## Permission table and change validator (specification, section 4.1) -/

/-- Modelled from the spec: the permission table lookup, participant → role
(`lib/services/collaboration` is missing from the sources). -/
def roleOf (s : Session) (userId : String) : Option Role :=
  (s.participants.find? (fun p => p.userId == userId)).map (fun p => p.role)

/-- An operation is structurally valid when its element identifier is not
empty and its kind is one of insert, update, delete. -/
def Operation.wellFormed (op : Operation) : Bool :=
  op.elementId != "" &&
    (match op.kind with
     | .other _ => false
     | _ => true)

/-- Modelled from the spec: `validate(change, participantRole)` of section
4.1 (`lib/services/collaboration` is missing from the sources).  It fails with
PermissionDenied when the role is viewer, and with MalformedChange when an
operation has an empty element identifier or an unsupported kind; a viewer
"always receives PermissionDenied", so the role is looked at first. -/
def validate (change : Change) (participantRole : Role) : Except Failure Unit :=
  if participantRole = Role.viewer then .error .permissionDenied
  else if change.operations.all Operation.wellFormed then .ok ()
  else .error .malformedChange

/-! ## Synchronizer (specification, section 4.2) -/

/-- Whether the edit log records a mutation of `elementId` by a merge that
produced a version later than `base`. -/
def touchedSince (log : List (Nat × String)) (base : Nat) (elementId : String) : Bool :=
  log.any (fun e => decide (base < e.1) && e.2 == elementId)

/-- Modelled from the spec: conflict detection, steps 1 to 3 of section 4.2
(`lib/services/collaboration` is missing from the sources).  With
`baseVersion` equal to the current version nothing conflicts; with a stale
`baseVersion` an operation conflicts exactly when its target element was
mutated by a merge that occurred since `baseVersion`.  The scenario of section
8 (an update of `elem1` at base 0 conflicts with the insert of `elem1` that
produced version 1) makes an insert count as a mutation of its element. -/
def inConflict (s : Session) (change : Change) (op : Operation) : Bool :=
  decide (change.baseVersion < s.version) &&
    touchedSince s.log change.baseVersion op.elementId

/-- Content stored in the document under an element identifier. -/
def lookup (doc : List Element) (elementId : String) : Option String :=
  (doc.find? (fun e => e.id == elementId)).map (fun e => e.content)

/-- Replace the content of every element carrying the identifier. -/
def setContent (doc : List Element) (elementId content : String) : List Element :=
  doc.map (fun e => if e.id == elementId then { e with content := content } else e)

/-- Modelled from the spec: the effect of one applied operation on the
ordered document (`lib/services/collaboration` is missing from the sources).
An insert introduces the element at the end (and rewrites it when the
identifier is already present), an update rewrites the addressed element, a
delete removes it.  The specification does not say what an update or delete of
an absent identifier does; here they leave the document as it is. -/
def applyOp (doc : List Element) (op : Operation) : List Element :=
  match op.kind with
  | .insert =>
      if doc.any (fun e => e.id == op.elementId) then setContent doc op.elementId op.content
      else doc ++ [{ id := op.elementId, content := op.content }]
  | .update => setContent doc op.elementId op.content
  | .delete => doc.filter (fun e => e.id != op.elementId)
  | .other _ => doc

/-- Modelled from the spec: merge application of section 4.2
(`lib/services/collaboration` is missing from the sources).  The operations
that do not conflict are applied in the order of the submitted change and the
version is incremented by exactly 1 however many were applied; when zero
operations survive the version does not increment and the merge is a no-op
with the full conflict list. -/
def merge (s : Session) (change : Change) : MergeResult × Session :=
  let applied := change.operations.filter (fun op => !inConflict s change op)
  let rejected := change.operations.filter (fun op => inConflict s change op)
  let report := rejected.map (fun op => { operation := op, reason := ConflictReason.concurrentModification : Conflict })
  if applied.isEmpty then
    ({ changes := [], conflicts := report, version := s.version }, s)
  else
    ({ changes := applied, conflicts := report, version := s.version + 1 },
     { s with
       version := s.version + 1
       document := applied.foldl applyOp s.document
       log := s.log ++ applied.map (fun op => (s.version + 1, op.elementId)) })

/-- Modelled from the spec: the Synchronizer entry point of section 4.2
(`lib/services/collaboration` is missing from the sources).  A base version
greater than the current version is "rejected outright" with
InvalidBaseVersion (step 4), so that check comes first; calls against a closed
session fail with SessionClosed (section 4.3); otherwise the change is merged.
A failure leaves the session as it was. -/
def synchronize (s : Session) (change : Change) : Except Failure MergeResult × Session :=
  if s.version < change.baseVersion then (.error .invalidBaseVersion, s)
  else if s.status = Status.closed then (.error .sessionClosed, s)
  else ((.ok (merge s change).1), (merge s change).2)

/-- Modelled from the spec: `CollaborationService.applyChanges(sessionId,
userId, changes)`, the `submitChange` operation of section 6
(`lib/services/collaboration` is missing from the sources).  The state is the
stored session that `sessionId` resolves to.  The change is validated against
the submitter's role before it is handed to the Synchronizer.  The
specification does not say what a submitter without a participant record
receives; here it is PermissionDenied, the error for an insufficient role. -/
def CollaborationService.applyChanges (_sessionId userId : String) (changes : Change)
    (s : Session) : Except Failure MergeResult × Session :=
  match roleOf s userId with
  | none => (.error .permissionDenied, s)
  | some role =>
    match validate changes role with
    | .error e => (.error e, s)
    | .ok _ => synchronize s changes

/-! ## `api/collaboration/real-time-planning.js` -/

/-- The object `syncChanges` returns. -/
structure SyncResponse where
  success : Bool
  changes : List Operation
  conflicts : List Conflict
  version : Nat
  deriving DecidableEq, Repr

/-- Source function `syncChanges(sessionId, userId, changes)`.  The two
awaited collaborator calls are parameters acting on a state `σ`; either may
throw (`Except.error`), and a throw leaves the function at once with the state
reached so far. -/
def syncChanges {σ ε : Type}
    (applyChanges : String → String → Change → σ → Except ε MergeResult × σ)
    (broadcastChanges : String → MergeResult → σ → Except ε Unit × σ)
    (sessionId userId : String) (changes : Change) (w : σ) : Except ε SyncResponse × σ :=
  match applyChanges sessionId userId changes w with
  | (.error e, w1) => (.error e, w1)
  | (.ok result, w1) =>
    match broadcastChanges sessionId result w1 with
    | (.error e, w2) => (.error e, w2)
    | (.ok _, w2) =>
      (.ok { success := true
             changes := result.changes
             conflicts := result.conflicts
             version := result.version }, w2)

/-- Transport collaborator standing for `RealtimeService.broadcastChanges`
(`lib/services/realtime` is missing from the sources): an external delivery
layer that has no access to the session; `deliver` decides whether the call
returns or throws. -/
def broadcastVia (deliver : String → MergeResult → Except Failure Unit) :
    String → MergeResult → Session → Except Failure Unit × Session :=
  fun sessionId result s => (deliver sessionId result, s)

/-- A call made by `syncChanges` to one of its two collaborators. -/
inductive Call
  | applyChanges (sessionId userId : String) (changes : Change)
  | broadcastChanges (sessionId : String) (payload : MergeResult)
  deriving DecidableEq, Repr

/-- Run the merge collaborator and note the call in the call record. -/
def recordApply {σ ε : Type}
    (applyChanges : String → String → Change → σ → Except ε MergeResult × σ) :
    String → String → Change → σ × List Call → Except ε MergeResult × (σ × List Call) :=
  fun sessionId userId changes w =>
    ((applyChanges sessionId userId changes w.1).1,
     ((applyChanges sessionId userId changes w.1).2,
      w.2 ++ [Call.applyChanges sessionId userId changes]))

/-- Run the broadcast collaborator and note the call in the call record. -/
def recordBroadcast {σ ε : Type}
    (broadcastChanges : String → MergeResult → σ → Except ε Unit × σ) :
    String → MergeResult → σ × List Call → Except ε Unit × (σ × List Call) :=
  fun sessionId result w =>
    ((broadcastChanges sessionId result w.1).1,
     ((broadcastChanges sessionId result w.1).2,
      w.2 ++ [Call.broadcastChanges sessionId result]))

/-- One change submission: who submits and what. -/
structure Submission where
  userId : String
  changes : Change
  deriving DecidableEq, Repr

/-- Session left by one `sync_changes` submission. -/
def syncStep (deliver : String → MergeResult → Except Failure Unit) (sessionId : String)
    (s : Session) (sub : Submission) : Session :=
  (syncChanges CollaborationService.applyChanges (broadcastVia deliver)
    sessionId sub.userId sub.changes s).2

/-- Session left by a sequence of submissions processed one after the other. -/
def runSync (deliver : String → MergeResult → Except Failure Unit) (sessionId : String) :
    List Submission → Session → Session
  | [], s => s
  | sub :: rest, s => runSync deliver sessionId rest (syncStep deliver sessionId s sub)

/-- A submission is an accepted merge when the merge step returns with at
least one applied operation. -/
def accepted (sessionId : String) (s : Session) (sub : Submission) : Bool :=
  match (CollaborationService.applyChanges sessionId sub.userId sub.changes s).1 with
  | .ok result => !result.changes.isEmpty
  | .error _ => false

/-- Number of accepted merges along a sequence of submissions. -/
def acceptedCount (deliver : String → MergeResult → Except Failure Unit) (sessionId : String) :
    List Submission → Session → Nat
  | [], _ => 0
  | sub :: rest, s =>
    (if accepted sessionId s sub then 1 else 0) +
      acceptedCount deliver sessionId rest (syncStep deliver sessionId s sub)

/-- Every entry of the edit log belongs to a version the session has reached.
It holds for a new session (empty log) and every merge keeps it. -/
def logOk (s : Session) : Prop :=
  ∀ e ∈ s.log, e.1 ≤ s.version

instance (s : Session) : Decidable (logOk s) := by
  unfold logOk
  infer_instance

/-- Modelled from the spec: `createSession(ownerId, initialDocument,
configuration)` of section 4.3 (`lib/services/collaboration` is missing from
the sources): a new active session with version 0 and the owner as sole
participant.  The identifier assigned at creation is taken as an argument and
the configuration options play no part in merging. -/
def createSession (id ownerId : String) (initialDocument : List Element) : Session :=
  { id := id
    createdBy := ownerId
    participants := [{ userId := ownerId, role := .owner }]
    version := 0
    document := initialDocument
    status := .active
    log := [] }

/-- The fields of `req` the handler reads: `req.method` and the destructured
`req.body`. -/
structure Request where
  method : String
  action : String
  userId : String
  sessionId : String
  collaborators : List String
  changes : Change
  permissions : List (String × String)
  deriving DecidableEq, Repr

/-- JSON bodies the handler sends. -/
inductive Body (α β : Type)
  | error (error : String)
  | failed (error : String) (message : String)
  | session (value : α)
  | sync (value : SyncResponse)
  | perms (value : β)
  deriving DecidableEq, Repr

/-- An HTTP answer: `res.status(status).json(body)`. -/
structure Response (α β : Type) where
  status : Nat
  body : Body α β
  deriving DecidableEq, Repr

/-- Source function `handler(req, res)` of
`api/collaboration/real-time-planning.js`.  `startCollaborationSession` and
`managePermissions` are parameters, as are the two collaborators of
`syncChanges`; `message` reads `error.message`.  Any throw inside the `try`
is answered with status 500. -/
def handler {σ ε α β : Type} (message : ε → String)
    (startCollaborationSession :
      String → List String → List (String × String) → σ → Except ε α × σ)
    (applyChanges : String → String → Change → σ → Except ε MergeResult × σ)
    (broadcastChanges : String → MergeResult → σ → Except ε Unit × σ)
    (managePermissions : String → String → List (String × String) → σ → Except ε β × σ)
    (req : Request) (w : σ) : Response α β × σ :=
  if req.method != "POST" then
    ({ status := 405, body := .error "Method not allowed" }, w)
  else if req.action == "start_collaboration" then
    match startCollaborationSession req.userId req.collaborators req.permissions w with
    | (.ok session, w1) => ({ status := 200, body := .session session }, w1)
    | (.error e, w1) => ({ status := 500, body := .failed "Collaboration failed" (message e) }, w1)
  else if req.action == "sync_changes" then
    match syncChanges applyChanges broadcastChanges req.sessionId req.userId req.changes w with
    | (.ok sync, w1) => ({ status := 200, body := .sync sync }, w1)
    | (.error e, w1) => ({ status := 500, body := .failed "Collaboration failed" (message e) }, w1)
  else if req.action == "manage_permissions" then
    match managePermissions req.sessionId req.userId req.permissions w with
    | (.ok perms, w1) => ({ status := 200, body := .perms perms }, w1)
    | (.error e, w1) => ({ status := 500, body := .failed "Collaboration failed" (message e) }, w1)
  else
    ({ status := 400, body := .error "Invalid action" }, w)

/-! ## Concrete sessions and changes (the scenario of section 8) -/

/-- Session created by `ownerA` at version 0 with an empty document, with
`editorB` invited as editor and `viewerC` as viewer. -/
def session0 : Session :=
  { id := "s1"
    createdBy := "ownerA"
    participants :=
      [{ userId := "ownerA", role := .owner },
       { userId := "editorB", role := .editor },
       { userId := "viewerC", role := .viewer }]
    version := 0
    document := []
    status := .active
    log := [] }

/-- The change `{baseVersion: 0, insert(elem1)}`. -/
def insertElem1 : Change :=
  { baseVersion := 0, operations := [{ kind := .insert, elementId := "elem1", content := "Louvre" }] }

/-- The change `{baseVersion: 0, update(elem1)}`. -/
def updateElem1 : Change :=
  { baseVersion := 0, operations := [{ kind := .update, elementId := "elem1", content := "Orsay" }] }

/-- The change `{baseVersion: 0, insert(elem2)}`. -/
def insertElem2 : Change :=
  { baseVersion := 0, operations := [{ kind := .insert, elementId := "elem2", content := "Versailles" }] }

/-- The session after `ownerA` submitted `insertElem1`: version 1, document
`{elem1}`. -/
def session1 : Session :=
  (CollaborationService.applyChanges "s1" "ownerA" insertElem1 session0).2

/-- A transport that delivers every broadcast. -/
def deliverOk : String → MergeResult → Except Failure Unit :=
  fun _ _ => .ok ()

/-- A transport that fails every broadcast. -/
def deliverDown : String → MergeResult → Except Failure Unit :=
  fun _ _ => .error (.external "transport unavailable")

/-- The change `{baseVersion: 1, update(elem1)}` as `ownerA` writes it. -/
def ownerUpdateAt1 : Change :=
  { baseVersion := 1, operations := [{ kind := .update, elementId := "elem1", content := "Rodin" }] }

/-- The change `{baseVersion: 1, update(elem1)}` as `editorB` writes it. -/
def editorUpdateAt1 : Change :=
  { baseVersion := 1, operations := [{ kind := .update, elementId := "elem1", content := "Orsay" }] }

/-- A change whose base version (5) no session of the scenario has reached. -/
def aheadChange : Change :=
  { baseVersion := 5, operations := [{ kind := .update, elementId := "elem1", content := "Orsay" }] }

/-- The `sync_changes` request with which `ownerA` submits `insertElem1`. -/
def syncRequest : Request :=
  { method := "POST"
    action := "sync_changes"
    userId := "ownerA"
    sessionId := "s1"
    collaborators := []
    changes := insertElem1
    permissions := [] }

/-- Stand-in for `startCollaborationSession` where the route is not taken. -/
def startStub : String → List String → List (String × String) → Session →
    Except Failure Unit × Session :=
  fun _ _ _ s => (.ok (), s)

/-- Stand-in for `managePermissions` where the route is not taken. -/
def manageStub : String → String → List (String × String) → Session →
    Except Failure Unit × Session :=
  fun _ _ _ s => (.ok (), s)

/-! ## Call counting for the request handler -/

/-- Run a three-argument collaborator and count the call. -/
def countCalls {σ ε α A B C : Type} (f : A → B → C → σ → Except ε α × σ) :
    A → B → C → σ × Nat → Except ε α × (σ × Nat) :=
  fun x y z w => ((f x y z w.1).1, ((f x y z w.1).2, w.2 + 1))

/-- Run the broadcast collaborator and count the call. -/
def countBroadcast {σ ε : Type} (f : String → MergeResult → σ → Except ε Unit × σ) :
    String → MergeResult → σ × Nat → Except ε Unit × (σ × Nat) :=
  fun x y w => ((f x y w.1).1, ((f x y w.1).2, w.2 + 1))

/-- The `sync_changes` request with which `viewerC` submits `insertElem1`. -/
def viewerRequest : Request :=
  { method := "POST"
    action := "sync_changes"
    userId := "viewerC"
    sessionId := "s1"
    collaborators := []
    changes := insertElem1
    permissions := [] }

/-- A POST request whose action is none of the three the handler knows. -/
def closeRequest : Request :=
  { method := "POST"
    action := "close_session"
    userId := "ownerA"
    sessionId := "s1"
    collaborators := []
    changes := insertElem1
    permissions := [] }

/-! ## `findTravelBuddies` (community features) -/

/-- One entry of `buddies`: the compatible user together with the
`compatibilityScore` computed for it.  The other fields the source adds
(reasons, mutual connections, verification status, travel history) are carried
by `user` and play no part in sorting.  Scores are exact rationals. -/
structure Buddy (υ : Type) where
  user : υ
  compatibilityScore : ℚ

/-- The comparator `(a, b) => b.compatibilityScore - a.compatibilityScore`. -/
def compareBuddies {υ : Type} (a b : Buddy υ) : ℚ :=
  b.compatibilityScore - a.compatibilityScore

/-- `Array.prototype.sort` with the comparator of the source: a stable sort in
which `a` stays before `b` when the comparator is not positive. -/
def sortBuddies {υ : Type} (buddies : List (Buddy υ)) : List (Buddy υ) :=
  buddies.mergeSort (fun a b => decide (compareBuddies a b ≤ 0))

/-- The object `findTravelBuddies` returns. -/
structure BuddySearch (υ φ γ : Type) where
  success : Bool
  buddies : List (Buddy υ)
  searchCriteria : φ
  totalMatches : Nat
  suggestions : γ

/-- Source function `findTravelBuddies(userId, filters)`.  The answers of
`CommunityService` are parameters: `compatibleUsers` is what
`findCompatibleTravelers` returned, `score` is the `score` of
`calculateCompatibility(userProfile, user)` and `suggestions` the value of
`getBuddyFindingSuggestions`. -/
def findTravelBuddies {υ φ γ : Type} (filters : φ) (suggestions : γ)
    (score : υ → ℚ) (compatibleUsers : List υ) : BuddySearch υ φ γ :=
  let buddies := sortBuddies
    (compatibleUsers.map (fun user => { user := user, compatibilityScore := score user }))
  { success := true
    buddies := buddies.take 20
    searchCriteria := filters
    totalMatches := buddies.length
    suggestions := suggestions }

/-! ## `analyzeTransaction` (fraud detection) -/

/-- The three values of `decision`. -/
inductive Decision
  | approved
  | review
  | blocked
  deriving DecidableEq, Repr

/-- A JavaScript number, that is an IEEE 754 binary64 value: NaN, one of the
two infinities, or the finite value `mantissa × 2 ^ exponent`.  The sign of
zero is not kept: no operation used here tells `+0` from `-0`. -/
inductive JSNumber
  | nan
  | posInf
  | negInf
  | finite (mantissa exponent : Int)
  deriving DecidableEq, Repr

/-- Binary digits of `n`, counted by halving at most `fuel` times. -/
def bitLengthAux : Nat → Nat → Nat
  | 0, _ => 0
  | fuel + 1, n => if n = 0 then 0 else bitLengthAux fuel (n / 2) + 1

/-- Number of binary digits of a natural number (0 for 0). -/
def bitLength (n : Nat) : Nat :=
  bitLengthAux n n

/-- The binary64 value of the real number `m × 2 ^ e`: round to nearest, ties
to even, as every arithmetic operation of JavaScript rounds its exact result.
`target` is the exponent of the last kept binary digit: 53 digits are kept,
fewer below the smallest normal number (exponent -1074); `kept` is the
magnitude in units of `2 ^ target` after rounding.  A magnitude of `2 ^ 1024`
or more overflows to an infinity.  Results are returned in one normal form
(53 digits, or exponent -1074, or `0 × 2 ^ 0`). -/
def roundToDouble (m e : Int) : JSNumber :=
  let a := m.natAbs
  let target : Int := max (e + (bitLength a : Int) - 53) (-1074)
  let kept : Nat :=
    if target ≤ e then a * 2 ^ (e - target).toNat
    else
      let k := (target - e).toNat
      let q := a / 2 ^ k
      let r := a % 2 ^ k
      if 2 ^ (k - 1) < r ∨ (r = 2 ^ (k - 1) ∧ q % 2 = 1) then q + 1 else q
  if kept = 0 then .finite 0 0
  else if 1024 < (bitLength kept : Int) + target then (if 0 < m then .posInf else .negInf)
  else if kept = 2 ^ 53 then .finite (if 0 < m then 2 ^ 52 else -(2 ^ 52)) (target + 1)
  else .finite (if 0 < m then (kept : Int) else -(kept : Int)) target

/-- The JavaScript operator `*` on numbers. -/
def JSNumber.mul : JSNumber → JSNumber → JSNumber
  | .nan, _ => .nan
  | _, .nan => .nan
  | .finite m1 e1, .finite m2 e2 => roundToDouble (m1 * m2) (e1 + e2)
  | .finite m _, .posInf => if m = 0 then .nan else if 0 < m then .posInf else .negInf
  | .finite m _, .negInf => if m = 0 then .nan else if 0 < m then .negInf else .posInf
  | .posInf, .finite m _ => if m = 0 then .nan else if 0 < m then .posInf else .negInf
  | .negInf, .finite m _ => if m = 0 then .nan else if 0 < m then .negInf else .posInf
  | .posInf, .posInf => .posInf
  | .negInf, .negInf => .posInf
  | .posInf, .negInf => .negInf
  | .negInf, .posInf => .negInf

/-- The JavaScript operator `+` on numbers. -/
def JSNumber.add : JSNumber → JSNumber → JSNumber
  | .nan, _ => .nan
  | _, .nan => .nan
  | .posInf, .negInf => .nan
  | .negInf, .posInf => .nan
  | .posInf, _ => .posInf
  | _, .posInf => .posInf
  | .negInf, _ => .negInf
  | _, .negInf => .negInf
  | .finite m1 e1, .finite m2 e2 =>
    roundToDouble (m1 * 2 ^ (e1 - min e1 e2).toNat + m2 * 2 ^ (e2 - min e1 e2).toNat)
      (min e1 e2)

/-- The real number `m × 2 ^ e`. -/
def scaled (m e : Int) : ℚ :=
  m * (2 : ℚ) ^ e

/-- The JavaScript operator `>` on numbers; every comparison with NaN is
false. -/
def JSNumber.gt : JSNumber → JSNumber → Bool
  | .nan, _ => false
  | _, .nan => false
  | _, .posInf => false
  | .posInf, _ => true
  | .negInf, _ => false
  | .finite _ _, .negInf => true
  | .finite m1 e1, .finite m2 e2 => decide (scaled m2 e2 < scaled m1 e1)

/-- The JavaScript operator `<=` on numbers; every comparison with NaN is
false. -/
def JSNumber.le : JSNumber → JSNumber → Bool
  | .nan, _ => false
  | _, .nan => false
  | _, .posInf => true
  | .negInf, _ => true
  | .posInf, _ => false
  | .finite _ _, .negInf => false
  | .finite m1 e1, .finite m2 e2 => decide (scaled m1 e1 ≤ scaled m2 e2)

/-- The literal `0.7`: the binary64 value nearest to 7/10. -/
def weightML : JSNumber :=
  .finite 6305039478318694 (-53)

/-- The literal `0.3`: the binary64 value nearest to 3/10. -/
def weightRules : JSNumber :=
  .finite 5404319552844595 (-54)

/-- The literal `0.8`: the binary64 value nearest to 8/10. -/
def blockThreshold : JSNumber :=
  .finite 7205759403792794 (-53)

/-- The literal `0.5`, which binary64 holds exactly. -/
def reviewThreshold : JSNumber :=
  .finite 4503599627370496 (-53)

/-- The fields of the returned object that the decision logic fills in,
together with the recommendations obtained for the risk score. -/
structure Analysis (ρ : Type) where
  success : Bool
  decision : Decision
  riskScore : JSNumber
  reason : String
  recommendations : ρ

/-- Source function `analyzeTransaction`.  `mlScore` is `fraudPrediction.score`
and `ruleScore` is `ruleChecks.score`, both JavaScript numbers; the products,
the sum and the two comparisons are those of binary64 arithmetic.
`logAnalysis` and `getRecommendations` stand for the two `FraudService` calls
made after the decision, either of which may throw. -/
def analyzeTransaction {ε ρ : Type} (logAnalysis : JSNumber → Decision → Except ε Unit)
    (getRecommendations : JSNumber → Except ε ρ) (mlScore ruleScore : JSNumber) :
    Except ε (Analysis ρ) :=
  let riskScore := (mlScore.mul weightML).add (ruleScore.mul weightRules)
  let verdict : Decision × String :=
    if riskScore.gt blockThreshold then (.blocked, "High fraud risk detected")
    else if riskScore.gt reviewThreshold then (.review, "Moderate fraud risk - requires review")
    else (.approved, "Transaction appears legitimate")
  match logAnalysis riskScore verdict.1 with
  | .error e => .error e
  | .ok _ =>
    match getRecommendations riskScore with
    | .error e => .error e
    | .ok recommendations =>
      .ok { success := true
            decision := verdict.1
            riskScore := riskScore
            reason := verdict.2
            recommendations := recommendations }

/-- The score 0.5000000000000001, the binary64 value next above 0.5. -/
def scoreAboveHalf : JSNumber :=
  .finite 4503599627370497 (-53)

/-- A logging collaborator that succeeds. -/
def logQuietly : JSNumber → Decision → Except String Unit :=
  fun _ _ => .ok ()

/-- A recommendation collaborator that succeeds with nothing to recommend. -/
def recommendNothing : JSNumber → Except String Unit :=
  fun _ => .ok ()

/-! ## `joinTravelCommunity` (community features) -/

/-- A row of `travelCommunity`. -/
structure Community where
  id : String
  name : String
  deriving DecidableEq, Repr

/-- A row of `communityMember`. -/
structure CommunityMember where
  userId : String
  communityId : String
  role : String
  joinedAt : Nat
  deriving DecidableEq, Repr

/-- The tables `joinTravelCommunity` reads and writes, with the record of the
welcome messages sent and the reputation points awarded. -/
structure CommunityWorld where
  communities : List Community
  members : List CommunityMember
  welcomed : List (String × String)
  awarded : List (String × String × Nat)
  deriving DecidableEq, Repr

/-- The two shapes of the object `joinTravelCommunity` returns. -/
inductive JoinResult
  | refused (success : Bool) (message : String)
  | joined (success : Bool) (membership : CommunityMember) (community : Community)
      (welcomeMessage : String) (suggestedActions : List String)
  deriving DecidableEq, Repr

/-- Source function `joinTravelCommunity(userId, communityId)`.  The four
calls to `CommunityService` and `ReputationService` are parameters that may
throw; a call to `sendWelcomeMessage` or `awardPoints` is recorded in the
state when it is made.  `now` is `new Date()`. -/
def joinTravelCommunity
    (sendWelcomeMessage : String → Community → Except String Unit)
    (awardPoints : String → String → Nat → Except String Unit)
    (getWelcomeMessage : Community → Except String String)
    (getSuggestedActions : String → Community → Except String (List String))
    (now : Nat) (userId communityId : String) (w : CommunityWorld) :
    Except String JoinResult × CommunityWorld :=
  match w.communities.find? (fun c => c.id == communityId) with
  | none => (.error "Community not found", w)
  | some community =>
    match w.members.find? (fun m => m.userId == userId && m.communityId == communityId) with
    | some _ => (.ok (.refused false "Already a member of this community"), w)
    | none =>
      let membership : CommunityMember :=
        { userId := userId, communityId := communityId, role := "member", joinedAt := now }
      let w1 := { w with members := w.members ++ [membership] }
      let w2 := { w1 with welcomed := w1.welcomed ++ [(userId, community.id)] }
      match sendWelcomeMessage userId community with
      | .error e => (.error e, w2)
      | .ok _ =>
        let w3 := { w2 with awarded := w2.awarded ++ [(userId, "join_community", 25)] }
        match awardPoints userId "join_community" 25 with
        | .error e => (.error e, w3)
        | .ok _ =>
          match getWelcomeMessage community with
          | .error e => (.error e, w3)
          | .ok welcomeMessage =>
            match getSuggestedActions userId community with
            | .error e => (.error e, w3)
            | .ok suggestedActions =>
              (.ok (.joined true membership community welcomeMessage suggestedActions), w3)

/-- A world with one community of which `ownerA` is a member. -/
def communityWorld : CommunityWorld :=
  { communities := [{ id := "c1", name := "Backpackers" }]
    members := [{ userId := "ownerA", communityId := "c1", role := "member", joinedAt := 0 }]
    welcomed := []
    awarded := [] }

/-! ## `NotificationService.send` -/

/-- The stored `preferences.notifications` of a user: `none` is a value that
is unset at any level of `user?.preferences?.notifications?.email`. -/
structure NotificationPrefs where
  email : Option Bool
  push : Option Bool
  deriving DecidableEq, Repr

/-- A row of `user` as selected by `send`. -/
structure UserRow where
  id : String
  email : String
  notifications : NotificationPrefs
  deriving DecidableEq, Repr

/-- A row of `notification` as `send` creates it (`metadata` is left out). -/
structure Notification where
  userId : String
  type : String
  title : String
  content : String
  senderId : String
  deriving DecidableEq, Repr

/-- The tables `send` reads and writes, with the record of the calls to
`sendEmail` (address, title) and `sendPushNotification` (user, title). -/
structure NotifyWorld where
  users : List UserRow
  notifications : List Notification
  emails : List (String × String)
  pushes : List (String × String)
  deriving DecidableEq, Repr

/-- The test `user?.preferences?.notifications?.email !== false`. -/
def emailWanted (user : Option UserRow) : Bool :=
  match user with
  | some u => u.notifications.email != some false
  | none => true

/-- The test `user?.preferences?.notifications?.push !== false`. -/
def pushWanted (user : Option UserRow) : Bool :=
  match user with
  | some u => u.notifications.push != some false
  | none => true

/-- The loop of `send` over the remaining recipients, `acc` being the
`notifications` array so far.  `sendEmail` and `sendPushNotification` catch
their own errors and never throw; reading `user.email` of a `null` user
throws a TypeError, which leaves `send`. -/
def NotificationService.sendLoop (type title message senderId : String) :
    List String → List Notification → NotifyWorld → Except String (List Notification) × NotifyWorld
  | [], acc, w => (.ok acc, w)
  | recipient :: rest, acc, w =>
    let notification : Notification :=
      { userId := recipient, type := type, title := title, content := message,
        senderId := senderId }
    let w1 := { w with notifications := w.notifications ++ [notification] }
    let user := w1.users.find? (fun u => u.id == recipient)
    if emailWanted user then
      match user with
      | none => (.error "TypeError: Cannot read properties of null (reading 'email')", w1)
      | some u =>
        let w2 := { w1 with emails := w1.emails ++ [(u.email, title)] }
        if pushWanted user then
          NotificationService.sendLoop type title message senderId rest (acc ++ [notification])
            { w2 with pushes := w2.pushes ++ [(recipient, title)] }
        else
          NotificationService.sendLoop type title message senderId rest (acc ++ [notification]) w2
    else if pushWanted user then
      NotificationService.sendLoop type title message senderId rest (acc ++ [notification])
        { w1 with pushes := w1.pushes ++ [(recipient, title)] }
    else
      NotificationService.sendLoop type title message senderId rest (acc ++ [notification]) w1

/-- Source function `NotificationService.send`; `recipients` lists the
`userId` of each recipient. -/
def NotificationService.send (type title message senderId : String)
    (recipients : List String) (w : NotifyWorld) :
    Except String (List Notification) × NotifyWorld :=
  NotificationService.sendLoop type title message senderId recipients [] w

/-- A user table with an opted-in user and a user who turned email off. -/
def notifyWorld : NotifyWorld :=
  { users :=
      [{ id := "ownerA", email := "a@example.org", notifications := { email := none, push := some true } },
       { id := "editorB", email := "b@example.org", notifications := { email := some false, push := none } }]
    notifications := []
    emails := []
    pushes := [] }

/-! ## `SearchService.searchDestinations` and `searchActivities` -/

/-- An entry of the `popularDestinations` catalogue.  The rating is carried
along and never computed with. -/
structure Destination where
  name : String
  country : String
  type : String
  rating : ℚ

/-- An entry of the `sampleActivities` catalogue. -/
structure Activity where
  name : String
  destination : String
  type : String
  price : Nat

/-- The catalogue literal of `searchDestinations`. -/
def popularDestinations : List Destination :=
  [{ name := "Paris, France", country := "France", type := "city", rating := 48 / 10 },
   { name := "Tokyo, Japan", country := "Japan", type := "city", rating := 49 / 10 },
   { name := "New York, USA", country := "USA", type := "city", rating := 47 / 10 },
   { name := "Barcelona, Spain", country := "Spain", type := "city", rating := 46 / 10 },
   { name := "Bali, Indonesia", country := "Indonesia", type := "island", rating := 48 / 10 }]

/-- The catalogue literal of `searchActivities`. -/
def sampleActivities : List Activity :=
  [{ name := "Eiffel Tower Visit", destination := "Paris", type := "sightseeing", price := 25 },
   { name := "Sushi Making Class", destination := "Tokyo", type := "cultural", price := 80 },
   { name := "Broadway Show", destination := "New York", type := "entertainment", price := 150 },
   { name := "Sagrada Familia Tour", destination := "Barcelona", type := "cultural", price := 35 },
   { name := "Volcano Hiking", destination := "Bali", type := "adventure", price := 60 }]

/-- The method `text.includes(part)`: `part` occurs in `text` as a contiguous
run of characters. -/
def includes (text part : String) : Bool :=
  decide (part.data <:+: text.data)

/-- The method `array.slice(start, stop)` for indices that are not negative. -/
def slice {α : Type} (l : List α) (start stop : Nat) : List α :=
  (l.take stop).drop start

/-- The filter predicate of `searchDestinations`; `toLowerCase` is the string
method of that name. -/
def destinationMatches (toLowerCase : String → String) (query : String)
    (dest : Destination) : Bool :=
  includes (toLowerCase dest.name) (toLowerCase query) ||
    includes (toLowerCase dest.country) (toLowerCase query)

/-- The filter predicate of `searchActivities`. -/
def activityMatches (toLowerCase : String → String) (query : String)
    (activity : Activity) : Bool :=
  includes (toLowerCase activity.name) (toLowerCase query) ||
    includes (toLowerCase activity.destination) (toLowerCase query)

/-- Source function `SearchService.searchDestinations(query, filters, page,
limit, sortBy)`; `filters` and `sortBy` are not used by the source. -/
def SearchService.searchDestinations (toLowerCase : String → String) (query : String)
    (page limit : Nat) : List Destination :=
  slice (popularDestinations.filter (destinationMatches toLowerCase query))
    ((page - 1) * limit) (page * limit)

/-- Source function `SearchService.searchActivities(query, filters, page,
limit, sortBy)`; `filters` and `sortBy` are not used by the source. -/
def SearchService.searchActivities (toLowerCase : String → String) (query : String)
    (page limit : Nat) : List Activity :=
  slice (sampleActivities.filter (activityMatches toLowerCase query))
    ((page - 1) * limit) (page * limit)

/-- Lower-casing of the letters `A` to `Z`: what `toLowerCase` does on the
catalogue entries and on queries written in those letters. -/
def lowerAscii (s : String) : String :=
  ⟨s.data.map Char.toLower⟩

/-! ## `CleanupService.cleanupExpiredSessions` -/

/-- The value read as `sessionData.expiresAt` from the parsed session data:
`missing` when there is no such property (the read gives `undefined`), else
the JSON value found there.  `text` is a string, or an array or object, which
`new Date` converts to a string before anything else. -/
inductive ExpiresAt
  | missing
  | null
  | bool (value : Bool)
  | number (value : JSNumber)
  | text (value : String)
  deriving DecidableEq, Repr

/-- What `redis.get(key)` holds, seen through the loop body: the empty string
(falsy, skipped), a value on which `JSON.parse` throws or which parses to
`null` so that the read of `expiresAt` throws, or any other parsed value with
what the read of `expiresAt` gives. -/
inductive StoredValue
  | empty
  | malformed
  | session (expiresAt : ExpiresAt)
  deriving DecidableEq, Repr

/-- The key pattern `session:*`. -/
def isSessionKey (key : String) : Bool :=
  "session:".data.isPrefixOf key.data

/-- The command `redis.keys('session:*')`. -/
def redisKeys (store : List (String × StoredValue)) : List String :=
  (store.filter (fun e => isSessionKey e.1)).map (fun e => e.1)

/-- The command `redis.get(key)`. -/
def redisGet (store : List (String × StoredValue)) (key : String) : Option StoredValue :=
  (store.find? (fun e => e.1 == key)).map (fun e => e.2)

/-- The command `redis.del(key)`. -/
def redisDel (store : List (String × StoredValue)) (key : String) :
    List (String × StoredValue) :=
  store.filter (fun e => e.1 != key)

/-- The operation `TimeClip` that `new Date(number)` applies: a number that is
not finite or whose magnitude exceeds 8.64e15 gives no time value (an invalid
date); any other number is cut to its integer part. -/
def timeClip : JSNumber → Option Int
  | .finite m e =>
    if (m * 2 ^ e.toNat).natAbs ≤ 8640000000000000 * 2 ^ (-e).toNat then
      some (Int.tdiv (m * 2 ^ e.toNat) (2 ^ (-e).toNat))
    else none
  | _ => none

/-- Time value, in milliseconds since the epoch, of `new Date(expiresAt)`;
`none` is an invalid date.  `undefined` converts to NaN, `null` and `false` to
0, `true` to 1, a number goes through `TimeClip`, and a string is parsed;
`parseDate` is `Date.parse`. -/
def dateValue (parseDate : String → Option Int) : ExpiresAt → Option Int
  | .missing => none
  | .null => some 0
  | .bool value => some (if value then 1 else 0)
  | .number value => timeClip value
  | .text value => parseDate value

/-- The test `new Date(sessionData.expiresAt) < new Date()`, with `now` the
time value of `new Date()`; a comparison with an invalid date is false. -/
def expired (parseDate : String → Option Int) (now : Int) : StoredValue → Bool
  | .session expiresAt =>
    match dateValue parseDate expiresAt with
    | some t => decide (t < now)
    | none => false
  | _ => false

/-- The `for` loop of `cleanupExpiredSessions` over the remaining keys with
`cleanedCount` so far.  A throw inside the loop is caught by the enclosing
`try`: the run ends there and no count is logged (`none`). -/
def cleanupLoop (parseDate : String → Option Int) (now : Int) :
    List String → List (String × StoredValue) → Nat → Option Nat × List (String × StoredValue)
  | [], store, cleanedCount => (some cleanedCount, store)
  | key :: rest, store, cleanedCount =>
    match redisGet store key with
    | none => cleanupLoop parseDate now rest store cleanedCount
    | some .empty => cleanupLoop parseDate now rest store cleanedCount
    | some .malformed => (none, store)
    | some (.session expiresAt) =>
      if expired parseDate now (.session expiresAt) then
        cleanupLoop parseDate now rest (redisDel store key) (cleanedCount + 1)
      else cleanupLoop parseDate now rest store cleanedCount

/-- Source function `CleanupService.cleanupExpiredSessions()`: the count it
logs, if it logs one, and the store it leaves.  The clock is read once. -/
def cleanupExpiredSessions (parseDate : String → Option Int) (now : Int)
    (store : List (String × StoredValue)) : Option Nat × List (String × StoredValue) :=
  cleanupLoop parseDate now (redisKeys store) store 0

/-- Whether the value stored under a key is an expired session. -/
def expiredKey (parseDate : String → Option Int) (now : Int)
    (store : List (String × StoredValue)) (key : String) : Bool :=
  match redisGet store key with
  | some v => expired parseDate now v
  | none => false

/-- Whether the loop body gets through the value stored under a key without a
throw. -/
def readable (store : List (String × StoredValue)) (key : String) : Bool :=
  redisGet store key != some StoredValue.malformed

/-- A date parser that knows one ISO date, one millisecond after the epoch. -/
def parseIso : String → Option Int :=
  fun s => if s = "1970-01-01T00:00:00.001Z" then some 1 else none

/-- A store with an unparseable session entry followed by an expired one. -/
def brokenStore : List (String × StoredValue) :=
  [("session:a", .malformed), ("session:b", .session (.number (.finite 1 0)))]

/-- A store with an expired session, a live session, a session whose
`expiresAt` is `null`, one without `expiresAt`, one whose `expiresAt` is a date
string, and a cache entry. -/
def sessionStore : List (String × StoredValue) :=
  [("session:a", .session (.number (.finite 1 0))),
   ("session:b", .session (.number (.finite 99 0))),
   ("session:c", .session .null),
   ("session:d", .session .missing),
   ("session:e", .session (.text "1970-01-01T00:00:00.001Z")),
   ("cache:x", .session (.number (.finite 1 0)))]

/-- A store with an unparseable session entry between two expired ones. -/
def mixedStore : List (String × StoredValue) :=
  [("session:a", .session (.number (.finite 1 0))),
   ("session:b", .malformed),
   ("session:c", .session (.number (.finite 2 0)))]

/-! ## `processSensorData` (IoT integration) -/

/-- The object `sensorData.airQuality`; `aqi` may be missing. -/
structure AirQuality where
  aqi : Option ℚ

/-- The readings `processSensorData` looks at; a missing reading is `none`.
Readings are exact rationals. -/
structure SensorData where
  temperature : Option ℚ
  humidity : Option ℚ
  airQuality : Option AirQuality
  noiseLevel : Option ℚ

/-- An entry of `insights.recommendations`. -/
structure Recommendation where
  type : String
  message : String
  action : String
  deriving DecidableEq, Repr

/-- The recommendation pushed when the comfort index is below 30. -/
def coldAdvice : Recommendation :=
  { type := "comfort"
    message := "It\x27s quite cold. Consider layering up and finding indoor activities."
    action := "suggest_indoor_activities" }

/-- The recommendation pushed when the comfort index is above 80. -/
def heatAdvice : Recommendation :=
  { type := "comfort"
    message := "It\x27s very hot. Stay hydrated and seek shade or air conditioning."
    action := "suggest_cooling_activities" }

/-- The recommendation pushed when the air quality index is above 150. -/
def airAdvice : Recommendation :=
  { type := "health"
    message := "Air quality is poor. Consider indoor activities and wearing a mask."
    action := "suggest_indoor_alternatives" }

/-- The recommendation pushed when the noise level is above 85. -/
def noiseAdvice : Recommendation :=
  { type := "comfort"
    message := "It\x27s quite noisy here. Consider quieter alternatives or ear protection."
    action := "suggest_quiet_locations" }

/-- Truthiness of a numeric reading: a missing reading and the number 0 are
falsy. -/
def truthy (reading : Option ℚ) : Bool :=
  match reading with
  | some v => v != 0
  | none => false

/-- The block under `Temperature and humidity insights`. -/
def comfortAdvice (calculateComfortIndex : ℚ → ℚ → ℚ) (sensorData : SensorData) :
    List Recommendation :=
  match sensorData.temperature, sensorData.humidity with
  | some temperature, some humidity =>
    if truthy (some temperature) && truthy (some humidity) then
      if calculateComfortIndex temperature humidity < 30 then [coldAdvice]
      else if calculateComfortIndex temperature humidity > 80 then [heatAdvice]
      else []
    else []
  | _, _ => []

/-- The block under `Air quality insights`; an object is always truthy and a
comparison with a missing `aqi` is false. -/
def airQualityAdvice (sensorData : SensorData) : List Recommendation :=
  match sensorData.airQuality with
  | some airQuality =>
    match airQuality.aqi with
    | some aqi => if aqi > 150 then [airAdvice] else []
    | none => []
  | none => []

/-- The block under `Noise level insights`; a comparison with a missing
reading is false. -/
def noiseLevelAdvice (sensorData : SensorData) : List Recommendation :=
  match sensorData.noiseLevel with
  | some noiseLevel => if noiseLevel > 85 then [noiseAdvice] else []
  | none => []

/-- Source function `processSensorData`: the list `insights.recommendations`
it builds, in push order.  `calculateComfortIndex` is not among the sources and
is a parameter; the analyses stored next to the list and the notification
sent afterwards do not touch it. -/
def processSensorData (calculateComfortIndex : ℚ → ℚ → ℚ) (sensorData : SensorData) :
    List Recommendation :=
  comfortAdvice calculateComfortIndex sensorData ++ airQualityAdvice sensorData ++
    noiseLevelAdvice sensorData

/-- A reading of 0 degrees at 50 percent humidity, nothing else measured. -/
def freezingReading : SensorData :=
  { temperature := some 0, humidity := some 50, airQuality := none, noiseLevel := none }

/-! ## `api/webhooks/stripe.js` -/

/-- The `metadata` of a payment intent, as the handlers read it. -/
structure PaymentMetadata where
  userId : String
  type : String
  deriving DecidableEq, Repr

/-- The value `event.data.object`, with the properties the handlers read: `id`,
`metadata` (missing: `none`), `customer`, and the price id
`items.data[0].price.id` (missing: `none`). -/
structure EventObject where
  id : String
  metadata : Option PaymentMetadata
  customer : String
  priceId : Option String
  deriving DecidableEq, Repr

/-- A verified Stripe event. -/
structure StripeEvent where
  type : String
  object : EventObject
  deriving DecidableEq, Repr

/-- A row of `carbonOffset`. -/
structure CarbonOffsetRow where
  paymentIntentId : String
  status : String
  deriving DecidableEq, Repr

/-- A row of `booking`. -/
structure BookingRow where
  paymentId : String
  status : String
  deriving DecidableEq, Repr

/-- A value of `subscriptionTier`: a tier name, or a member that every object
inherits from `Object.prototype` (a function or an object, not a string),
which is what the lookup `tiers[priceId]` gives for a price id that is the
name of such a member. -/
inductive TierValue
  | name (tier : String)
  | inherited (member : String)
  deriving DecidableEq, Repr

/-- A row of `user` with the subscription columns. -/
structure SubscriberRow where
  id : String
  stripeCustomerId : Option String
  stripeSubscriptionId : Option String
  subscriptionTier : TierValue
  deriving DecidableEq, Repr

/-- The tables the webhook handlers write, with the record `handlerRuns` of
the payment and subscription handlers entered, in order. -/
structure WebhookWorld where
  carbonOffsets : List CarbonOffsetRow
  bookings : List BookingRow
  users : List SubscriberRow
  handlerRuns : List String
  deriving DecidableEq, Repr

/-- The fields of `req` the webhook handler reads: the method, the raw body
and the `stripe-signature` header. -/
structure WebhookRequest where
  method : String
  body : String
  signature : Option String
  deriving DecidableEq, Repr

/-- The bodies built by `ApiResponse.error(message, code)` and
`ApiResponse.success(data)` with `data = { received }`. -/
inductive WebhookBody
  | error (message : String) (code : String)
  | success (received : Bool)
  deriving DecidableEq, Repr

/-- An HTTP answer of the webhook handler. -/
structure WebhookResponse where
  status : Nat
  body : WebhookBody
  deriving DecidableEq, Repr

/-- The property names that the object literal `tiers` inherits from
`Object.prototype`; the value found under each of them is truthy. -/
def objectPrototypeMembers : List String :=
  ["constructor", "__defineGetter__", "__defineSetter__", "hasOwnProperty",
   "__lookupGetter__", "__lookupSetter__", "isPrototypeOf", "propertyIsEnumerable",
   "toString", "valueOf", "__proto__", "toLocaleString"]

/-- Source function `getSubscriptionTier(priceId)`: the lookup
`tiers[priceId]` with `free` as the fallback for a falsy result.  The lookup
finds the four own properties and the inherited members; anything else is
`undefined` and gives `free`. -/
def getSubscriptionTier (priceId : String) : TierValue :=
  if priceId == "price_premium_monthly" then .name "premium"
  else if priceId == "price_premium_yearly" then .name "premium"
  else if priceId == "price_enterprise_monthly" then .name "enterprise"
  else if priceId == "price_enterprise_yearly" then .name "enterprise"
  else if objectPrototypeMembers.contains priceId then .inherited priceId
  else .name "free"

/-- Source function `handlePaymentSuccess(paymentIntent)`; destructuring a
missing `metadata` throws. -/
def handlePaymentSuccess (paymentIntent : EventObject) (w : WebhookWorld) :
    Except String Unit × WebhookWorld :=
  let w1 := { w with handlerRuns := w.handlerRuns ++ ["handlePaymentSuccess"] }
  match paymentIntent.metadata with
  | none => (.error "TypeError: Cannot destructure property of undefined", w1)
  | some metadata =>
    if metadata.type == "carbon_offset" then
      (.ok (), { w1 with carbonOffsets := w1.carbonOffsets.map (fun r =>
        if r.paymentIntentId == paymentIntent.id then { r with status := "completed" } else r) })
    else if metadata.type == "booking" then
      (.ok (), { w1 with bookings := w1.bookings.map (fun r =>
        if r.paymentId == paymentIntent.id then { r with status := "confirmed" } else r) })
    else (.ok (), w1)

/-- Source function `handlePaymentFailed(paymentIntent)`. -/
def handlePaymentFailed (paymentIntent : EventObject) (w : WebhookWorld) :
    Except String Unit × WebhookWorld :=
  let w1 := { w with handlerRuns := w.handlerRuns ++ ["handlePaymentFailed"] }
  match paymentIntent.metadata with
  | none => (.error "TypeError: Cannot destructure property of undefined", w1)
  | some metadata =>
    if metadata.type == "carbon_offset" then
      (.ok (), { w1 with carbonOffsets := w1.carbonOffsets.map (fun r =>
        if r.paymentIntentId == paymentIntent.id then { r with status := "failed" } else r) })
    else if metadata.type == "booking" then
      (.ok (), { w1 with bookings := w1.bookings.map (fun r =>
        if r.paymentId == paymentIntent.id then { r with status := "failed" } else r) })
    else (.ok (), w1)

/-- The call `prisma.user.update({ where: { id }, data })`. -/
def updateUser (users : List SubscriberRow) (id : String)
    (data : SubscriberRow → SubscriberRow) : List SubscriberRow :=
  users.map (fun u => if u.id == id then data u else u)

/-- Source function `handleSubscriptionCreated(subscription)`; reading the
price id of a subscription without items throws. -/
def handleSubscriptionCreated (subscription : EventObject) (w : WebhookWorld) :
    Except String Unit × WebhookWorld :=
  let w1 := { w with handlerRuns := w.handlerRuns ++ ["handleSubscriptionCreated"] }
  match w1.users.find? (fun u => u.stripeCustomerId == some subscription.customer) with
  | none => (.ok (), w1)
  | some user =>
    match subscription.priceId with
    | none => (.error "TypeError: Cannot read properties of undefined", w1)
    | some priceId =>
      (.ok (), { w1 with users := updateUser w1.users user.id (fun u =>
        { u with subscriptionTier := getSubscriptionTier priceId
                 stripeSubscriptionId := some subscription.id }) })

/-- Source function `handleSubscriptionUpdated(subscription)`. -/
def handleSubscriptionUpdated (subscription : EventObject) (w : WebhookWorld) :
    Except String Unit × WebhookWorld :=
  let w1 := { w with handlerRuns := w.handlerRuns ++ ["handleSubscriptionUpdated"] }
  match w1.users.find? (fun u => u.stripeSubscriptionId == some subscription.id) with
  | none => (.ok (), w1)
  | some user =>
    match subscription.priceId with
    | none => (.error "TypeError: Cannot read properties of undefined", w1)
    | some priceId =>
      (.ok (), { w1 with users := updateUser w1.users user.id (fun u =>
        { u with subscriptionTier := getSubscriptionTier priceId }) })

/-- Source function `handleSubscriptionDeleted(subscription)`. -/
def handleSubscriptionDeleted (subscription : EventObject) (w : WebhookWorld) :
    Except String Unit × WebhookWorld :=
  let w1 := { w with handlerRuns := w.handlerRuns ++ ["handleSubscriptionDeleted"] }
  match w1.users.find? (fun u => u.stripeSubscriptionId == some subscription.id) with
  | none => (.ok (), w1)
  | some user =>
    (.ok (), { w1 with users := updateUser w1.users user.id (fun u =>
      { u with subscriptionTier := .name "free", stripeSubscriptionId := none }) })

/-- The `switch (event.type)` of the webhook handler. -/
def dispatchEvent (event : StripeEvent) (w : WebhookWorld) : Except String Unit × WebhookWorld :=
  if event.type == "payment_intent.succeeded" then handlePaymentSuccess event.object w
  else if event.type == "payment_intent.payment_failed" then handlePaymentFailed event.object w
  else if event.type == "customer.subscription.created" then
    handleSubscriptionCreated event.object w
  else if event.type == "customer.subscription.updated" then
    handleSubscriptionUpdated event.object w
  else if event.type == "customer.subscription.deleted" then
    handleSubscriptionDeleted event.object w
  else (.ok (), w)

/-- Source function `handler(req, res)` of `api/webhooks/stripe.js`.
`constructEvent` stands for `stripe.webhooks.constructEvent(req.body, sig,
endpointSecret)` of the Stripe library, which returns the verified event or
throws. -/
def StripeWebhook.handler
    (constructEvent : String → Option String → String → Except String StripeEvent)
    (endpointSecret : String) (req : WebhookRequest) (w : WebhookWorld) :
    WebhookResponse × WebhookWorld :=
  if req.method != "POST" then
    ({ status := 405, body := .error "Method not allowed" "METHOD_NOT_ALLOWED" }, w)
  else
    match constructEvent req.body req.signature endpointSecret with
    | .error _ =>
      ({ status := 400,
         body := .error "Webhook signature verification failed" "INVALID_SIGNATURE" }, w)
    | .ok event =>
      match dispatchEvent event w with
      | (.ok _, w1) => ({ status := 200, body := .success true }, w1)
      | (.error _, w1) =>
        ({ status := 500, body := .error "Webhook handler failed" "WEBHOOK_ERROR" }, w1)

/-- A signature check that accepts only the signature `good` and reads the
event type from the body. -/
def checkSignature : String → Option String → String → Except String StripeEvent :=
  fun body signature _ =>
    if signature == some "good" then
      .ok { type := body
            object := { id := "pi_1", metadata := some { userId := "ownerA", type := "booking" },
                        customer := "cus_1", priceId := none } }
    else .error "No signatures found matching the expected signature for payload"

/-- A database with one pending booking, one pending offset and one user. -/
def webhookWorld : WebhookWorld :=
  { carbonOffsets := [{ paymentIntentId := "pi_1", status := "pending" }]
    bookings := [{ paymentId := "pi_1", status := "pending" }]
    users := [{ id := "ownerA", stripeCustomerId := some "cus_1", stripeSubscriptionId := none,
                subscriptionTier := .name "free" }]
    handlerRuns := [] }

/-! ## `NotificationService.generateEmailTemplate` -/

/-- The text of the email template up to the `title` element. -/
def templateHead : String :=
  String.join
    ["\n",
     "      <!DOCTYPE html>\n",
     "      <html>\n",
     "        <head>\n",
     "          <meta charset=\"utf-8\">\n",
     "          <title>"]

/-- The text of the email template from the end of the `title` element to the
heading. -/
def templateAfterTitle : String :=
  String.join
    ["</title>\n",
     "          <style>\n",
     "            body \x7b font-family: Arial, sans-serif; margin: 0; padding: 20px; \x7d\n",
     "            .container \x7b max-width: 600px; margin: 0 auto; \x7d\n",
     "            .header \x7b background: #2563eb; color: white; padding: 20px; text-align: center; \x7d\n",
     "            .content \x7b padding: 20px; background: #f9fafb; \x7d\n",
     "            .button \x7b background: #2563eb; color: white; padding: 10px 20px; text-decoration: none; border-radius: 5px; \x7d\n",
     "            .footer \x7b padding: 20px; text-align: center; font-size: 12px; color: #666; \x7d\n",
     "          </style>\n",
     "        </head>\n",
     "        <body>\n",
     "          <div class=\"container\">\n",
     "            <div class=\"header\">\n",
     "              <h1>Travel Mate Pro</h1>\n",
     "            </div>\n",
     "            <div class=\"content\">\n",
     "              <h2>"]

/-- The text of the email template between the heading and the message paragraph. -/
def templateAfterHeading : String :=
  String.join
    ["</h2>\n",
     "              <p>"]

/-- The text of the email template between the message paragraph and the
action link. -/
def templateAfterMessage : String :=
  String.join
    ["</p>\n",
     "              "]

/-- The text of the email template from the action link to the unsubscribe
address. -/
def templateAfterLink : String :=
  String.join
    ["\n",
     "            </div>\n",
     "            <div class=\"footer\">\n",
     "              <p>\u00c2\u00a9 2024 Travel Mate Pro. All rights reserved.</p>\n",
     "              <p>\n",
     "                <a href=\""]

/-- The text of the email template between the two footer addresses. -/
def templateAfterUnsubscribe : String :=
  String.join
    ["/unsubscribe\">Unsubscribe</a> |\n",
     "                <a href=\""]

/-- The text of the email template after the privacy address. -/
def templateTail : String :=
  String.join
    ["/privacy\">Privacy Policy</a>\n",
     "              </p>\n",
     "            </div>\n",
     "          </div>\n",
     "        </body>\n",
     "      </html>\n",
     "    "]

/-- The argument `data` of the email template, with the property it reads. -/
structure EmailData where
  actionUrl : Option String
  deriving DecidableEq, Repr

/-- The interpolation `data?.actionUrl ? <a href=...> : ''`: the link when
`data.actionUrl` is a non-empty string, the empty string otherwise. -/
def actionLink (data : Option EmailData) : String :=
  match data with
  | some d =>
    match d.actionUrl with
    | some actionUrl =>
      if actionUrl != "" then
        "<a href=\"" ++ actionUrl ++ "\" class=\"button\">View Details</a>"
      else ""
    | none => ""
  | none => ""

/-- Source function `NotificationService.generateEmailTemplate(title, message,
data)`: the template literal with its interpolations; `frontendUrl` is
`process.env.FRONTEND_URL`. -/
def NotificationService.generateEmailTemplate (frontendUrl title message : String)
    (data : Option EmailData) : String :=
  templateHead ++ title ++ templateAfterTitle ++ title ++ templateAfterHeading ++ message ++
    templateAfterMessage ++ actionLink data ++ templateAfterLink ++ frontendUrl ++
    templateAfterUnsubscribe ++ frontendUrl ++ templateTail

/-- A title that is a script element. -/
def scriptTitle : String := "<script>alert(1)</script>"

/-- A message that is an image element with an event handler. -/
def imageMessage : String := "<img src=x onerror=alert(2)>"

/-- An action address that closes the attribute and opens a script element. -/
def quoteUrl : String := "\"><script>alert(3)</script>"

/-! ## Helper lemmas -/

theorem syncChanges_broadcastVia_state
    (a : String → String → Change → Session → Except Failure MergeResult × Session)
    (deliver : String → MergeResult → Except Failure Unit)
    (sessionId userId : String) (changes : Change) (s : Session) :
    (syncChanges a (broadcastVia deliver) sessionId userId changes s).2 =
      (a sessionId userId changes s).2 := by
  unfold syncChanges broadcastVia
  rcases h : a sessionId userId changes s with ⟨r | r, s1⟩
  · simp
  · rcases hd : deliver sessionId r with e | u <;> simp [hd]

theorem merge_changes_isEmpty (s : Session) (c : Change) :
    (merge s c).1.changes.isEmpty =
      (c.operations.filter (fun op => !inConflict s c op)).isEmpty := by
  unfold merge
  by_cases h : (c.operations.filter (fun op => !inConflict s c op)).isEmpty = true
  · simp [h]
  · simp [h]

theorem merge_version (s : Session) (c : Change) :
    (merge s c).2.version = s.version + (if (merge s c).1.changes.isEmpty then 0 else 1) ∧
      (merge s c).1.version = (merge s c).2.version := by
  rw [merge_changes_isEmpty]
  unfold merge
  by_cases h : (c.operations.filter (fun op => !inConflict s c op)).isEmpty = true
  · simp [h]
  · simp [h]

theorem applyChanges_cases (sessionId userId : String) (c : Change) (s : Session) :
    (∃ e, CollaborationService.applyChanges sessionId userId c s = (.error e, s)) ∨
      CollaborationService.applyChanges sessionId userId c s = (.ok (merge s c).1, (merge s c).2) := by
  unfold CollaborationService.applyChanges
  rcases hr : roleOf s userId with _ | role
  · simp
  · rcases hv : validate c role with e | u
    · simp [hv]
    · simp only [synchronize, hv]
      by_cases h1 : s.version < c.baseVersion
      · simp [h1]
      · by_cases h2 : s.status = Status.closed
        · simp [h1, h2]
        · simp [h1, h2]

theorem syncStep_version (deliver : String → MergeResult → Except Failure Unit)
    (sessionId : String) (s : Session) (sub : Submission) :
    (syncStep deliver sessionId s sub).version =
      s.version + (if accepted sessionId s sub then 1 else 0) := by
  unfold syncStep accepted
  rw [syncChanges_broadcastVia_state]
  rcases applyChanges_cases sessionId sub.userId sub.changes s with ⟨e, h⟩ | h
  · simp [h]
  · rw [h]
    simp only
    rw [(merge_version s sub.changes).1]
    by_cases hb : (merge s sub.changes).1.changes.isEmpty = true <;> simp [hb]

theorem merge_fields (s : Session) (c : Change) :
    (merge s c).1.changes = c.operations.filter (fun op => !inConflict s c op) ∧
    (merge s c).1.conflicts =
      (c.operations.filter (fun op => inConflict s c op)).map
        (fun op => { operation := op, reason := ConflictReason.concurrentModification }) ∧
    (merge s c).2.document =
      (c.operations.filter (fun op => !inConflict s c op)).foldl applyOp s.document ∧
    (merge s c).2.log =
      s.log ++ (c.operations.filter (fun op => !inConflict s c op)).map
        (fun op => (s.version + 1, op.elementId)) ∧
    (merge s c).2.status = s.status ∧
    (merge s c).2.participants = s.participants := by
  unfold merge
  by_cases h : (c.operations.filter (fun op => !inConflict s c op)).isEmpty = true
  · have h0 : c.operations.filter (fun op => !inConflict s c op) = [] := by
      simpa using h
    simp [h0]
  · simp [h]

theorem applyChanges_accepts (sessionId userId : String) (c : Change) (s : Session)
    (role : Role) (hactive : s.status = Status.active) (hr : roleOf s userId = some role)
    (hv : validate c role = .ok ()) (hb : c.baseVersion ≤ s.version) :
    CollaborationService.applyChanges sessionId userId c s =
      (.ok (merge s c).1, (merge s c).2) := by
  unfold CollaborationService.applyChanges
  have h2 : ¬ s.version < c.baseVersion := by omega
  simp [hr, hv, synchronize, hactive, h2]

theorem inConflict_fresh (s : Session) (c : Change) (op : Operation)
    (hb : c.baseVersion = s.version) : inConflict s c op = false := by
  simp [inConflict, hb]

theorem filter_keep_all (ops : List Operation) (p : Operation → Bool)
    (h : ∀ op ∈ ops, p op = false) :
    ops.filter (fun op => !p op) = ops ∧ ops.filter (fun op => p op) = [] := by
  constructor
  · rw [List.filter_eq_self]
    intro op hop
    simp [h op hop]
  · rw [List.filter_eq_nil_iff]
    intro op hop
    simp [h op hop]

theorem roleOf_merge (s : Session) (c : Change) (userId : String) :
    roleOf (merge s c).2 userId = roleOf s userId := by
  unfold roleOf
  rw [(merge_fields s c).2.2.2.2.2]

theorem lookup_map_other (doc : List Element) (f : Element → Element) (elementId : String)
    (hid : ∀ e, (f e).id = e.id) (hc : ∀ e, e.id = elementId → (f e).content = e.content) :
    lookup (doc.map f) elementId = lookup doc elementId := by
  induction doc with
  | nil => rfl
  | cons e rest ih =>
    unfold lookup at ih ⊢
    simp only [List.map_cons, List.find?_cons, hid]
    cases h : (e.id == elementId)
    · simpa using ih
    · simp [hc e (by simpa using h)]

theorem lookup_filter_other (doc : List Element) (p : Element → Bool) (elementId : String)
    (hp : ∀ e, e.id = elementId → p e = true) :
    lookup (doc.filter p) elementId = lookup doc elementId := by
  induction doc with
  | nil => rfl
  | cons e rest ih =>
    unfold lookup at ih ⊢
    cases hpe : p e
    · have hne : (e.id == elementId) = false := by
        cases h : (e.id == elementId)
        · rfl
        · have := hp e (by simpa using h)
          simp [hpe] at this
      simp only [List.filter_cons, hpe, List.find?_cons, hne]
      simpa using ih
    · simp only [List.filter_cons, hpe, List.find?_cons, if_true]
      cases h : (e.id == elementId)
      · simpa using ih
      · simp

theorem lookup_applyOp_other (doc : List Element) (op : Operation) (elementId : String)
    (h : op.elementId ≠ elementId) : lookup (applyOp doc op) elementId = lookup doc elementId := by
  have hset : ∀ (v : String),
      lookup (setContent doc op.elementId v) elementId = lookup doc elementId := by
    intro v
    unfold setContent
    apply lookup_map_other
    · intro e
      split <;> rfl
    · intro e he
      have hne : ¬ e.id = op.elementId := fun h2 => h (h2.symm.trans he)
      simp [hne]
  unfold applyOp
  split
  · split
    · exact hset op.content
    · unfold lookup
      simp [List.find?_append, h]
  · exact hset op.content
  · apply lookup_filter_other
    intro e he
    have hne : ¬ e.id = op.elementId := fun h2 => h (h2.symm.trans he)
    simp [hne]
  · rfl

theorem lookup_foldl_other (ops : List Operation) (doc : List Element) (elementId : String)
    (h : ∀ op ∈ ops, op.elementId ≠ elementId) :
    lookup (ops.foldl applyOp doc) elementId = lookup doc elementId := by
  induction ops generalizing doc with
  | nil => rfl
  | cons op rest ih =>
    simp only [List.foldl_cons]
    rw [ih _ (fun o ho => h o (List.mem_cons_of_mem _ ho))]
    exact lookup_applyOp_other doc op elementId (h op (List.mem_cons_self _ _))

theorem touchedSince_append (l1 l2 : List (Nat × String)) (base : Nat) (elementId : String) :
    touchedSince (l1 ++ l2) base elementId =
      (touchedSince l1 base elementId || touchedSince l2 base elementId) := by
  simp [touchedSince, List.any_append]

theorem touchedSince_old (log : List (Nat × String)) (base : Nat) (elementId : String)
    (h : ∀ e ∈ log, e.1 ≤ base) : touchedSince log base elementId = false := by
  unfold touchedSince
  rw [List.any_eq_false]
  intro e he
  have := h e he
  simp
  intro h2
  omega

theorem touchedSince_applied (ops : List Operation) (v base : Nat) (elementId : String) :
    touchedSince (ops.map (fun op => (v, op.elementId))) base elementId =
      (decide (base < v) && ops.any (fun op => op.elementId == elementId)) := by
  induction ops with
  | nil => simp [touchedSince]
  | cons op rest ih =>
    unfold touchedSince at ih ⊢
    simp only [List.map_cons, List.any_cons, ih]
    cases decide (base < v) <;> simp

theorem logOk_createSession (id ownerId : String) (initialDocument : List Element) :
    logOk (createSession id ownerId initialDocument) := by
  intro e he
  cases he

theorem logOk_merge (s : Session) (c : Change) (h : logOk s) : logOk (merge s c).2 := by
  have hf := merge_fields s c
  have hv := (merge_version s c).1
  rw [hf.1] at hv
  intro e he
  rw [hf.2.2.2.1] at he
  rcases List.mem_append.mp he with h1 | h2
  · have := h e h1
    rw [hv]
    omega
  · obtain ⟨op, hop, rfl⟩ := List.mem_map.mp h2
    have hne : (c.operations.filter (fun op => !inConflict s c op)).isEmpty = false := by
      cases hl : c.operations.filter (fun op => !inConflict s c op) with
      | nil => rw [hl] at hop; cases hop
      | cons x l => rfl
    rw [hv, hne]
    simp

/-- The edit-log invariant is kept by every submission. -/
theorem logOk_applyChanges (sessionId userId : String) (c : Change) (s : Session)
    (h : logOk s) : logOk (CollaborationService.applyChanges sessionId userId c s).2 := by
  rcases applyChanges_cases sessionId userId c s with ⟨e, he⟩ | hm
  · rw [he]
    exact h
  · rw [hm]
    exact logOk_merge s c h

/-- After a merge at the current version, the version has moved by at most one
and every operation of the change is applied. -/
theorem merge_fresh (s : Session) (c : Change) (hb : c.baseVersion = s.version) :
    (merge s c).1.changes = c.operations ∧ (merge s c).1.conflicts = [] ∧
      (merge s c).2.version = s.version + (if c.operations.isEmpty then 0 else 1) ∧
      (merge s c).2.log = s.log ++ c.operations.map (fun op => (s.version + 1, op.elementId)) := by
  have hk := filter_keep_all c.operations (inConflict s c) (fun op _ => inConflict_fresh s c op hb)
  have hf := merge_fields s c
  have hv := (merge_version s c).1
  rw [hf.1, hk.1] at hv
  refine ⟨by rw [hf.1, hk.1], ?_, hv, by rw [hf.2.2.2.1, hk.1]⟩
  rw [hf.2.1]
  have : c.operations.filter (fun op => inConflict s c op) = [] := hk.2
  rw [this]
  rfl

/-- One order of the two-submission scenario with disjoint identifiers. -/
theorem disjoint_second_applies (sessionId u1 u2 : String) (c1 c2 : Change) (s : Session)
    (r1 r2 : Role) (hactive : s.status = Status.active) (hlog : logOk s)
    (hr1 : roleOf s u1 = some r1) (hv1 : validate c1 r1 = .ok ())
    (hr2 : roleOf s u2 = some r2) (hv2 : validate c2 r2 = .ok ())
    (hb1 : c1.baseVersion = s.version) (hb2 : c2.baseVersion = s.version)
    (hdisj : ∀ a ∈ c1.operations, ∀ b ∈ c2.operations, a.elementId ≠ b.elementId) :
    ∃ res1 s1 res2 s2,
      CollaborationService.applyChanges sessionId u1 c1 s = (.ok res1, s1) ∧
      res1.changes = c1.operations ∧ res1.conflicts = [] ∧
      CollaborationService.applyChanges sessionId u2 c2 s1 = (.ok res2, s2) ∧
      res2.changes = c2.operations ∧ res2.conflicts = [] := by
  have hfirst := applyChanges_accepts sessionId u1 c1 s r1 hactive hr1 hv1 (by omega)
  have hm := merge_fresh s c1 hb1
  have hf := merge_fields s c1
  have hver : s.version ≤ (merge s c1).2.version := by
    rw [hm.2.2.1]; omega
  have hsecond := applyChanges_accepts sessionId u2 c2 (merge s c1).2 r2
    (by rw [hf.2.2.2.2.1]; exact hactive) (by rw [roleOf_merge]; exact hr2) hv2 (by omega)
  have hno : ∀ op ∈ c2.operations, inConflict (merge s c1).2 c2 op = false := by
    intro op hop
    unfold inConflict
    rw [hm.2.2.2, touchedSince_append, touchedSince_old s.log c2.baseVersion op.elementId
      (by intro e he; have := hlog e he; omega), touchedSince_applied]
    have hany : c1.operations.any (fun o => o.elementId == op.elementId) = false := by
      rw [List.any_eq_false]
      intro a ha
      simpa using hdisj a ha op hop
    simp [hany]
  have hk := filter_keep_all c2.operations (inConflict (merge s c1).2 c2) hno
  have hf2 := merge_fields (merge s c1).2 c2
  refine ⟨_, _, _, _, hfirst, hm.1, hm.2.1, hsecond, by rw [hf2.1, hk.1], ?_⟩
  rw [hf2.2.1]
  have : c2.operations.filter (fun op => inConflict (merge s c1).2 c2 op) = [] := hk.2
  rw [this]
  rfl

theorem syncChanges_of_error {σ ε : Type}
    (a : String → String → Change → σ → Except ε MergeResult × σ)
    (b : String → MergeResult → σ → Except ε Unit × σ)
    (sessionId userId : String) (c : Change) (w w1 : σ) (e : ε)
    (h : a sessionId userId c w = (.error e, w1)) :
    syncChanges a b sessionId userId c w = (.error e, w1) := by
  unfold syncChanges
  rw [h]

theorem syncChanges_of_ok {σ ε : Type}
    (a : String → String → Change → σ → Except ε MergeResult × σ)
    (b : String → MergeResult → σ → Except ε Unit × σ)
    (sessionId userId : String) (c : Change) (w w1 w2 : σ) (r : MergeResult)
    (ha : a sessionId userId c w = (.ok r, w1)) (hb : b sessionId r w1 = (.ok (), w2)) :
    syncChanges a b sessionId userId c w =
      (.ok { success := true, changes := r.changes, conflicts := r.conflicts,
             version := r.version }, w2) := by
  unfold syncChanges
  rw [ha]
  dsimp only
  rw [hb]

theorem syncChanges_of_broadcast_error {σ ε : Type}
    (a : String → String → Change → σ → Except ε MergeResult × σ)
    (b : String → MergeResult → σ → Except ε Unit × σ)
    (sessionId userId : String) (c : Change) (w w1 w2 : σ) (r : MergeResult) (e : ε)
    (ha : a sessionId userId c w = (.ok r, w1)) (hb : b sessionId r w1 = (.error e, w2)) :
    syncChanges a b sessionId userId c w = (.error e, w2) := by
  unfold syncChanges
  rw [ha]
  dsimp only
  rw [hb]

/-! ## Theorems -/

/-- C1: for every session and every sequence of change submissions processed
by `syncChanges`, whatever the transport does, the version never decreases:
each submission leaves it unchanged or adds exactly 1, it adds 1 exactly when
the submission is an accepted merge (the merge step returned with at least one
applied operation, however many), and after the whole sequence the version is
the initial one plus the number of accepted merges. -/
theorem version_counts_accepted_merges
    (deliver : String → MergeResult → Except Failure Unit) (sessionId : String)
    (subs : List Submission) (s : Session) :
    (∀ (t : Session) (sub : Submission),
        (syncStep deliver sessionId t sub).version =
          t.version + (if accepted sessionId t sub then 1 else 0)) ∧
      s.version ≤ (runSync deliver sessionId subs s).version ∧
      (runSync deliver sessionId subs s).version =
        s.version + acceptedCount deliver sessionId subs s := by
  have key : ∀ (l : List Submission) (t : Session),
      (runSync deliver sessionId l t).version =
        t.version + acceptedCount deliver sessionId l t := by
    intro l
    induction l with
    | nil => intro t; simp [runSync, acceptedCount]
    | cons sub rest ih =>
      intro t
      simp only [runSync, acceptedCount]
      rw [ih, syncStep_version]
      omega
  refine ⟨fun t sub => syncStep_version deliver sessionId t sub, ?_, key subs s⟩
  rw [key subs s]
  omega

/-- C2: in an active session at version V, take two submissions that passed
validation, both with baseVersion = V, the first containing an update `op1` and
the second an update `op2` of the same element.  The one merged first applies
cleanly (all its operations applied, no conflict, version V + 1); the one
merged second has `op2` in its conflicts list and not among its applied
operations, and the document content of that element is still the one left by
the first merge. -/
theorem same_element_second_conflicts (sessionId u1 u2 : String) (c1 c2 : Change)
    (op1 op2 : Operation) (s : Session) (r1 r2 : Role)
    (hactive : s.status = Status.active)
    (hr1 : roleOf s u1 = some r1) (hv1 : validate c1 r1 = .ok ())
    (hr2 : roleOf s u2 = some r2) (hv2 : validate c2 r2 = .ok ())
    (hb1 : c1.baseVersion = s.version) (hb2 : c2.baseVersion = s.version)
    (h1 : op1 ∈ c1.operations) (h2 : op2 ∈ c2.operations)
    (_hk1 : op1.kind = OpKind.update) (_hk2 : op2.kind = OpKind.update)
    (hid : op2.elementId = op1.elementId) :
    ∃ res1 s1 res2 s2,
      CollaborationService.applyChanges sessionId u1 c1 s = (.ok res1, s1) ∧
      res1.changes = c1.operations ∧ res1.conflicts = [] ∧
      res1.version = s.version + 1 ∧ s1.version = s.version + 1 ∧
      CollaborationService.applyChanges sessionId u2 c2 s1 = (.ok res2, s2) ∧
      { operation := op2, reason := ConflictReason.concurrentModification } ∈ res2.conflicts ∧
      op2 ∉ res2.changes ∧
      lookup s2.document op1.elementId = lookup s1.document op1.elementId := by
  have hfirst := applyChanges_accepts sessionId u1 c1 s r1 hactive hr1 hv1 (by omega)
  have hm := merge_fresh s c1 hb1
  have hf := merge_fields s c1
  have hne : c1.operations.isEmpty = false := by
    cases hc : c1.operations with
    | nil => rw [hc] at h1; cases h1
    | cons a l => rfl
  have hver : (merge s c1).2.version = s.version + 1 := by
    rw [hm.2.2.1, hne]; rfl
  have hsecond := applyChanges_accepts sessionId u2 c2 (merge s c1).2 r2
    (by rw [hf.2.2.2.2.1]; exact hactive) (by rw [roleOf_merge]; exact hr2) hv2 (by omega)
  have hconf : ∀ op : Operation, op.elementId = op1.elementId →
      inConflict (merge s c1).2 c2 op = true := by
    intro op hop
    unfold inConflict
    rw [hm.2.2.2, touchedSince_append, touchedSince_applied, hver, hb2, hop]
    have hany : c1.operations.any (fun o => o.elementId == op1.elementId) = true := by
      rw [List.any_eq_true]
      exact ⟨op1, h1, by simp⟩
    simp [hany]
  have hf2 := merge_fields (merge s c1).2 c2
  refine ⟨_, _, _, _, hfirst, hm.1, hm.2.1, ?_, hver, hsecond, ?_, ?_, ?_⟩
  · rw [(merge_version s c1).2, hver]
  · rw [hf2.2.1, List.mem_map]
    exact ⟨op2, List.mem_filter.mpr ⟨h2, hconf op2 hid⟩, rfl⟩
  · rw [hf2.1]
    intro hmem
    have := (List.mem_filter.mp hmem).2
    simp [hconf op2 hid] at this
  · rw [hf2.2.2.1]
    apply lookup_foldl_other
    intro op hop heq
    have := (List.mem_filter.mp hop).2
    simp [hconf op heq] at this

/-- C3: in an active session at version V whose edit log is well formed, take
two submissions that passed validation, both with baseVersion = V, inserting
elements whose identifiers are new to the document and distinct between the
two submissions.  In whichever order they are merged, both apply all their
operations and both return an empty conflicts list. -/
theorem distinct_inserts_both_apply (sessionId u1 u2 : String) (c1 c2 : Change) (s : Session)
    (r1 r2 : Role) (hactive : s.status = Status.active) (hlog : logOk s)
    (hr1 : roleOf s u1 = some r1) (hv1 : validate c1 r1 = .ok ())
    (hr2 : roleOf s u2 = some r2) (hv2 : validate c2 r2 = .ok ())
    (hb1 : c1.baseVersion = s.version) (hb2 : c2.baseVersion = s.version)
    (_hins1 : ∀ op ∈ c1.operations, op.kind = OpKind.insert)
    (_hins2 : ∀ op ∈ c2.operations, op.kind = OpKind.insert)
    (_hnew1 : ∀ op ∈ c1.operations, lookup s.document op.elementId = none)
    (_hnew2 : ∀ op ∈ c2.operations, lookup s.document op.elementId = none)
    (hdisj : ∀ a ∈ c1.operations, ∀ b ∈ c2.operations, a.elementId ≠ b.elementId) :
    (∃ res1 s1 res2 s2,
      CollaborationService.applyChanges sessionId u1 c1 s = (.ok res1, s1) ∧
      res1.changes = c1.operations ∧ res1.conflicts = [] ∧
      CollaborationService.applyChanges sessionId u2 c2 s1 = (.ok res2, s2) ∧
      res2.changes = c2.operations ∧ res2.conflicts = []) ∧
    (∃ res2 s2 res1 s1,
      CollaborationService.applyChanges sessionId u2 c2 s = (.ok res2, s2) ∧
      res2.changes = c2.operations ∧ res2.conflicts = [] ∧
      CollaborationService.applyChanges sessionId u1 c1 s2 = (.ok res1, s1) ∧
      res1.changes = c1.operations ∧ res1.conflicts = []) :=
  ⟨disjoint_second_applies sessionId u1 u2 c1 c2 s r1 r2 hactive hlog hr1 hv1 hr2 hv2 hb1 hb2 hdisj,
   disjoint_second_applies sessionId u2 u1 c2 c1 s r2 r1 hactive hlog hr2 hv2 hr1 hv1 hb2 hb1
     (fun a ha b hb => (hdisj b hb a ha).symm)⟩

/-- C4: when a change that passed validation reaches the merge of an active
session and every one of its operations conflicts, zero operations survive:
the merge returns no applied operation, a conflicts list holding every
submitted operation in order, and the unchanged version; the session (version
and document) is left as it was, also after `syncChanges` has broadcast. -/
theorem all_conflicts_is_noop (deliver : String → MergeResult → Except Failure Unit)
    (sessionId userId : String) (c : Change) (s : Session) (role : Role)
    (hactive : s.status = Status.active) (hr : roleOf s userId = some role)
    (hv : validate c role = .ok ()) (hb : c.baseVersion ≤ s.version)
    (hall : ∀ op ∈ c.operations, inConflict s c op = true) :
    CollaborationService.applyChanges sessionId userId c s =
      (.ok { changes := []
             conflicts := c.operations.map
               (fun op => { operation := op, reason := ConflictReason.concurrentModification })
             version := s.version }, s) ∧
    (syncChanges CollaborationService.applyChanges (broadcastVia deliver)
      sessionId userId c s).2 = s := by
  have hacc := applyChanges_accepts sessionId userId c s role hactive hr hv hb
  have hnone : c.operations.filter (fun op => !inConflict s c op) = [] := by
    rw [List.filter_eq_nil_iff]
    intro op hop
    simp [hall op hop]
  have hevery : c.operations.filter (fun op => inConflict s c op) = c.operations := by
    rw [List.filter_eq_self]
    intro op hop
    exact hall op hop
  have hmerge : merge s c =
      ({ changes := []
         conflicts := c.operations.map
           (fun op => { operation := op, reason := ConflictReason.concurrentModification })
         version := s.version }, s) := by
    unfold merge
    simp [hnone, hevery]
  rw [hmerge] at hacc
  refine ⟨hacc, ?_⟩
  rw [syncChanges_broadcastVia_state, hacc]

/-- Witness for C2: `ownerA` and `editorB` both update `elem1` from version 1. -/
theorem same_element_second_conflicts_witness :
    ∃ res1 s1 res2 s2,
      CollaborationService.applyChanges "s1" "ownerA" ownerUpdateAt1 session1 = (.ok res1, s1) ∧
      res1.changes = ownerUpdateAt1.operations ∧ res1.conflicts = [] ∧
      res1.version = session1.version + 1 ∧ s1.version = session1.version + 1 ∧
      CollaborationService.applyChanges "s1" "editorB" editorUpdateAt1 s1 = (.ok res2, s2) ∧
      { operation := { kind := .update, elementId := "elem1", content := "Orsay" },
        reason := ConflictReason.concurrentModification } ∈ res2.conflicts ∧
      ({ kind := .update, elementId := "elem1", content := "Orsay" } : Operation) ∉ res2.changes ∧
      lookup s2.document "elem1" = lookup s1.document "elem1" :=
  same_element_second_conflicts "s1" "ownerA" "editorB" ownerUpdateAt1 editorUpdateAt1
    { kind := .update, elementId := "elem1", content := "Rodin" }
    { kind := .update, elementId := "elem1", content := "Orsay" }
    session1 Role.owner Role.editor
    (by decide) (by decide) (by decide) (by decide) (by decide) (by decide) (by decide)
    (by decide) (by decide) rfl rfl rfl

/-- Witness for C3: `ownerA` inserts `elem1` and `editorB` inserts `elem2`,
both from version 0. -/
theorem distinct_inserts_both_apply_witness :
    (∃ res1 s1 res2 s2,
      CollaborationService.applyChanges "s1" "ownerA" insertElem1 session0 = (.ok res1, s1) ∧
      res1.changes = insertElem1.operations ∧ res1.conflicts = [] ∧
      CollaborationService.applyChanges "s1" "editorB" insertElem2 s1 = (.ok res2, s2) ∧
      res2.changes = insertElem2.operations ∧ res2.conflicts = []) ∧
    (∃ res2 s2 res1 s1,
      CollaborationService.applyChanges "s1" "editorB" insertElem2 session0 = (.ok res2, s2) ∧
      res2.changes = insertElem2.operations ∧ res2.conflicts = [] ∧
      CollaborationService.applyChanges "s1" "ownerA" insertElem1 s2 = (.ok res1, s1) ∧
      res1.changes = insertElem1.operations ∧ res1.conflicts = []) :=
  distinct_inserts_both_apply "s1" "ownerA" "editorB" insertElem1 insertElem2 session0
    Role.owner Role.editor
    (by decide) (by decide) (by decide) (by decide) (by decide) (by decide) (by decide)
    (by decide) (by decide) (by decide) (by decide) (by decide) (by decide)

/-- Witness for C4, the scenario of the claim: after `ownerA`'s insert of
`elem1` at base 0 brought the session to version 1, `editorB`'s update of
`elem1` at base 0 is reported as a conflict and the version stays 1. -/
theorem all_conflicts_is_noop_witness :
    session1.version = 1 ∧
    CollaborationService.applyChanges "s1" "editorB" updateElem1 session1 =
      (.ok { changes := []
             conflicts := [{ operation := { kind := .update, elementId := "elem1", content := "Orsay" },
                             reason := ConflictReason.concurrentModification }]
             version := 1 }, session1) ∧
    (syncChanges CollaborationService.applyChanges (broadcastVia deliverOk)
      "s1" "editorB" updateElem1 session1).2 = session1 :=
  ⟨by decide,
   all_conflicts_is_noop deliverOk "s1" "editorB" updateElem1 session1 Role.editor
     (by decide) (by decide) (by decide) (by decide) (by decide)⟩

/-- C5: for every session, whatever its status, and every submitted change
that passed validation (the submitter is a participant and the change is
accepted for their role) whose baseVersion is greater than the session's
current version, the merge step and `syncChanges`, whatever the broadcaster,
reject the submission with InvalidBaseVersion and return the session as it
was, so its version and document are unchanged. -/
theorem ahead_base_invalid
    (b : String → MergeResult → Session → Except Failure Unit × Session)
    (sessionId userId : String) (c : Change) (s : Session) (role : Role)
    (hr : roleOf s userId = some role) (hv : validate c role = .ok ())
    (h : s.version < c.baseVersion) :
    CollaborationService.applyChanges sessionId userId c s =
      (.error .invalidBaseVersion, s) ∧
    syncChanges CollaborationService.applyChanges b sessionId userId c s =
      (.error .invalidBaseVersion, s) ∧
    (syncChanges CollaborationService.applyChanges b sessionId userId c s).2.version =
      s.version ∧
    (syncChanges CollaborationService.applyChanges b sessionId userId c s).2.document =
      s.document := by
  have h1 : CollaborationService.applyChanges sessionId userId c s =
      (.error .invalidBaseVersion, s) := by
    unfold CollaborationService.applyChanges
    simp [hr, hv, synchronize, h]
  have h2 := syncChanges_of_error _ b sessionId userId c s s _ h1
  exact ⟨h1, h2, by rw [h2], by rw [h2]⟩

/-- Witness for C5: `editorB` submits a change at base 5 to the session at
version 0; the answer is InvalidBaseVersion and the session stays at version 0
with its empty document. -/
theorem ahead_base_invalid_witness :
    session0.version = 0 ∧ aheadChange.baseVersion = 5 ∧
    CollaborationService.applyChanges "s1" "editorB" aheadChange session0 =
      (.error .invalidBaseVersion, session0) ∧
    syncChanges CollaborationService.applyChanges (broadcastVia deliverOk)
      "s1" "editorB" aheadChange session0 = (.error .invalidBaseVersion, session0) ∧
    (syncChanges CollaborationService.applyChanges (broadcastVia deliverOk)
      "s1" "editorB" aheadChange session0).2.version = 0 ∧
    (syncChanges CollaborationService.applyChanges (broadcastVia deliverOk)
      "s1" "editorB" aheadChange session0).2.document = [] :=
  ⟨rfl, rfl, ahead_base_invalid (broadcastVia deliverOk) "s1" "editorB" aheadChange session0
    Role.editor (by decide) (by decide) (by decide)⟩

/-- C6: for every session, every participant whose role is viewer and every
change, the merge step and `syncChanges` fail with PermissionDenied, whatever
the broadcaster, and the session (version and document) is unchanged. -/
theorem viewer_denied
    (b : String → MergeResult → Session → Except Failure Unit × Session)
    (sessionId userId : String) (c : Change) (s : Session)
    (h : roleOf s userId = some Role.viewer) :
    CollaborationService.applyChanges sessionId userId c s = (.error .permissionDenied, s) ∧
    syncChanges CollaborationService.applyChanges b sessionId userId c s =
      (.error .permissionDenied, s) := by
  have h1 : CollaborationService.applyChanges sessionId userId c s =
      (.error .permissionDenied, s) := by
    unfold CollaborationService.applyChanges
    simp [h, validate]
  exact ⟨h1, syncChanges_of_error _ b sessionId userId c s s _ h1⟩

/-- Witness for C6: `viewerC` submits the insert of `elem1`. -/
theorem viewer_denied_witness :
    CollaborationService.applyChanges "s1" "viewerC" insertElem1 session0 =
      (.error .permissionDenied, session0) ∧
    syncChanges CollaborationService.applyChanges (broadcastVia deliverOk)
      "s1" "viewerC" insertElem1 session0 = (.error .permissionDenied, session0) :=
  viewer_denied (broadcastVia deliverOk) "s1" "viewerC" insertElem1 session0 (by decide)

/-- Counterexample to C8 as stated: `editorB`'s stale update of `elem1` merges
with a total conflict (the merge step returns a result), yet with a failing
broadcast `syncChanges` raises, and the error it propagates is neither
InvalidBaseVersion nor SessionClosed. -/
theorem sync_raises_after_conflict_merge :
    (CollaborationService.applyChanges "s1" "editorB" updateElem1 session1).1 =
      .ok { changes := []
            conflicts := [{ operation := { kind := .update, elementId := "elem1", content := "Orsay" },
                            reason := ConflictReason.concurrentModification }]
            version := 1 } ∧
    (syncChanges CollaborationService.applyChanges (broadcastVia deliverDown)
      "s1" "editorB" updateElem1 session1).1 =
        .error (.external "transport unavailable") := by
  decide

/-- C8 (amended): when the merge step returns a result (with or without
conflicts) and the broadcast that follows returns, `syncChanges` returns
success = true with exactly the merge's changes, conflicts and version.
`syncChanges` raises an error exactly when the merge step raises it or the
merge step returns and the broadcaster raises it; it adds no error of its
own. -/
theorem syncChanges_outcome {σ ε : Type}
    (a : String → String → Change → σ → Except ε MergeResult × σ)
    (b : String → MergeResult → σ → Except ε Unit × σ)
    (sessionId userId : String) (c : Change) (w : σ) :
    (∀ r w1 w2, a sessionId userId c w = (.ok r, w1) → b sessionId r w1 = (.ok (), w2) →
      syncChanges a b sessionId userId c w =
        (.ok { success := true, changes := r.changes, conflicts := r.conflicts,
               version := r.version }, w2)) ∧
    (∀ e w2, syncChanges a b sessionId userId c w = (.error e, w2) ↔
      (a sessionId userId c w = (.error e, w2) ∨
        ∃ r w1, a sessionId userId c w = (.ok r, w1) ∧ b sessionId r w1 = (.error e, w2))) := by
  constructor
  · intro r w1 w2 ha hb
    exact syncChanges_of_ok a b sessionId userId c w w1 w2 r ha hb
  · intro e w2
    constructor
    · intro h
      unfold syncChanges at h
      rcases ha : a sessionId userId c w with ⟨e1 | r, w1⟩
      · rw [ha] at h
        simp only [Prod.mk.injEq, Except.error.injEq] at h
        obtain ⟨rfl, rfl⟩ := h
        exact Or.inl rfl
      · rw [ha] at h
        dsimp only at h
        rcases hb : b sessionId r w1 with ⟨e2 | u, w3⟩
        · rw [hb] at h
          simp only [Prod.mk.injEq, Except.error.injEq] at h
          obtain ⟨rfl, rfl⟩ := h
          exact Or.inr ⟨r, w1, rfl, hb⟩
        · rw [hb] at h
          simp at h
    · rintro (h | ⟨r, w1, ha, hb⟩)
      · exact syncChanges_of_error a b sessionId userId c w w2 e h
      · exact syncChanges_of_broadcast_error a b sessionId userId c w w1 w2 r e ha hb

/-- Witness for C8 (amended): `editorB`'s stale update of `elem1`, a merge
with a total conflict, followed by a delivered broadcast. -/
theorem syncChanges_outcome_witness :
    syncChanges CollaborationService.applyChanges (broadcastVia deliverOk)
      "s1" "editorB" updateElem1 session1 =
        (.ok { success := true
               changes := []
               conflicts := [{ operation := { kind := .update, elementId := "elem1", content := "Orsay" },
                               reason := ConflictReason.concurrentModification }]
               version := 1 }, session1) :=
  (syncChanges_outcome CollaborationService.applyChanges (broadcastVia deliverOk)
    "s1" "editorB" updateElem1 session1).1
    { changes := []
      conflicts := [{ operation := { kind := .update, elementId := "elem1", content := "Orsay" },
                      reason := ConflictReason.concurrentModification }]
      version := 1 } session1 session1 (by decide) (by decide)

/-- Counterexample to C9 as stated: the payload handed to the broadcaster does
not carry the submitting actor's id.  No function of the payload returns the
submitter: `ownerA` and `editorB` submitting the same insert to the same
session cause the same broadcast call. -/
theorem broadcast_payload_without_actor :
    ¬ ∃ actorId : MergeResult → String,
      ∀ (userId : String) (payload : MergeResult),
        Call.broadcastChanges "s1" payload ∈
          (syncChanges (recordApply CollaborationService.applyChanges)
            (recordBroadcast (broadcastVia deliverOk))
            "s1" userId insertElem1 (session0, [])).2.2 →
        actorId payload = userId := by
  rintro ⟨actorId, h⟩
  have h1 := h "ownerA" { changes := insertElem1.operations, conflicts := [], version := 1 }
    (by decide)
  have h2 := h "editorB" { changes := insertElem1.operations, conflicts := [], version := 1 }
    (by decide)
  rw [h1] at h2
  exact absurd h2 (by decide)

/-- C9 (amended): for every call of `syncChanges`, the calls it makes to its
collaborators are the merge call and then, when the merge step returned,
exactly one broadcast call for the same sessionId whose payload is the merge
result (its version, applied operations and conflicts); when the merge step
raises there is no broadcast call.  The payload is the merge result alone. -/
theorem broadcast_once_after_merge {σ ε : Type}
    (a : String → String → Change → σ → Except ε MergeResult × σ)
    (b : String → MergeResult → σ → Except ε Unit × σ)
    (sessionId userId : String) (c : Change) (w : σ) (t : List Call) :
    (syncChanges (recordApply a) (recordBroadcast b) sessionId userId c (w, t)).2.2 =
      match (a sessionId userId c w).1 with
      | .ok result =>
          t ++ [Call.applyChanges sessionId userId c, Call.broadcastChanges sessionId result]
      | .error _ => t ++ [Call.applyChanges sessionId userId c] := by
  unfold syncChanges recordApply recordBroadcast
  rcases ha : a sessionId userId c w with ⟨e1 | r, w1⟩
  · simp
  · rcases hb : b sessionId r w1 with ⟨e2 | u, w2⟩
    · simp [hb]
    · simp [hb]

/-- Counterexample to C10 as stated: `ownerA`'s insert merges (version 1) and
with a delivering transport the request is answered 200 with the merge result;
with a failing transport `syncChanges` raises the transport's error and the
request is answered 500. -/
theorem broadcast_failure_reaches_submitter :
    (CollaborationService.applyChanges "s1" "ownerA" insertElem1 session0).1 =
      .ok { changes := insertElem1.operations, conflicts := [], version := 1 } ∧
    (syncChanges CollaborationService.applyChanges (broadcastVia deliverOk)
      "s1" "ownerA" insertElem1 session0).1 =
        .ok { success := true, changes := insertElem1.operations, conflicts := [], version := 1 } ∧
    (syncChanges CollaborationService.applyChanges (broadcastVia deliverDown)
      "s1" "ownerA" insertElem1 session0).1 = .error (.external "transport unavailable") ∧
    (handler Failure.message startStub CollaborationService.applyChanges
      (broadcastVia deliverDown) manageStub syncRequest session0).1 =
        { status := 500
          body := .failed "Collaboration failed" "transport unavailable" } := by
  decide

/-- C10 (amended): for a `sync_changes` POST request whose merge step
succeeds, the answer follows the broadcast.  When the broadcast returns, the
request is answered 200 with the successful merge result.  When the broadcast
raises, `syncChanges` raises the same error and the request is answered 500
`Collaboration failed` with the error's message; nothing is rolled back, the
state is the one the merge and the broadcaster left. -/
theorem handler_sync_follows_broadcast {σ ε α β : Type} (message : ε → String)
    (start : String → List String → List (String × String) → σ → Except ε α × σ)
    (a : String → String → Change → σ → Except ε MergeResult × σ)
    (b : String → MergeResult → σ → Except ε Unit × σ)
    (manage : String → String → List (String × String) → σ → Except ε β × σ)
    (req : Request) (w w1 : σ) (r : MergeResult)
    (hm : req.method = "POST") (hact : req.action = "sync_changes")
    (ha : a req.sessionId req.userId req.changes w = (.ok r, w1)) :
    (∀ w2, b req.sessionId r w1 = (.ok (), w2) →
      handler message start a b manage req w =
        ({ status := 200
           body := .sync { success := true, changes := r.changes, conflicts := r.conflicts,
                           version := r.version } }, w2)) ∧
    (∀ e w2, b req.sessionId r w1 = (.error e, w2) →
      syncChanges a b req.sessionId req.userId req.changes w = (.error e, w2) ∧
      handler message start a b manage req w =
        ({ status := 500, body := .failed "Collaboration failed" (message e) }, w2)) := by
  constructor
  · intro w2 hb
    have := syncChanges_of_ok a b req.sessionId req.userId req.changes w w1 w2 r ha hb
    unfold handler
    simp [hm, hact, this]
  · intro e w2 hb
    have := syncChanges_of_broadcast_error a b req.sessionId req.userId req.changes
      w w1 w2 r e ha hb
    refine ⟨this, ?_⟩
    unfold handler
    simp [hm, hact, this]

/-- Witness for C10 (amended): `ownerA`'s insert request with a failing
transport is answered 500 and the merged session (version 1) is kept. -/
theorem handler_sync_follows_broadcast_witness :
    syncChanges CollaborationService.applyChanges (broadcastVia deliverDown)
      "s1" "ownerA" insertElem1 session0 =
        (.error (.external "transport unavailable"), session1) ∧
    handler Failure.message startStub CollaborationService.applyChanges
      (broadcastVia deliverDown) manageStub syncRequest session0 =
        ({ status := 500, body := .failed "Collaboration failed" "transport unavailable" },
         session1) :=
  (handler_sync_follows_broadcast Failure.message startStub CollaborationService.applyChanges
    (broadcastVia deliverDown) manageStub syncRequest session0 session1
    { changes := insertElem1.operations, conflicts := [], version := 1 }
    (by decide) (by decide) (by decide)).2 (.external "transport unavailable") session1
    (by decide)

/-! ## Validation and dispatch in the request handler -/

theorem applyChanges_ok_validated (sessionId userId : String) (c : Change) (s s1 : Session)
    (r : MergeResult) (h : CollaborationService.applyChanges sessionId userId c s = (.ok r, s1)) :
    ∃ role, roleOf s userId = some role ∧ validate c role = .ok () := by
  unfold CollaborationService.applyChanges at h
  rcases hr : roleOf s userId with _ | role
  · rw [hr] at h
    simp at h
  · rw [hr] at h
    dsimp only at h
    rcases hv : validate c role with e | u
    · rw [hv] at h
      simp at h
    · exact ⟨role, rfl, hv⟩

theorem applyChanges_invalid (sessionId userId : String) (c : Change) (s : Session)
    (role : Role) (e : Failure) (hr : roleOf s userId = some role)
    (hv : validate c role = .error e) :
    CollaborationService.applyChanges sessionId userId c s = (.error e, s) := by
  unfold CollaborationService.applyChanges
  rw [hr]
  dsimp only
  rw [hv]

/-- Counterexample to C11 as stated: for `viewerC`'s `sync_changes` request
the change does not pass validation, and the handler calls
`CollaborationService.applyChanges` with it all the same. -/
theorem unvalidated_change_reaches_applyChanges :
    roleOf session0 "viewerC" = some Role.viewer ∧
    validate viewerRequest.changes Role.viewer = .error .permissionDenied ∧
    (handler Failure.message (fun _ _ _ w => (Except.ok (), w))
      (recordApply CollaborationService.applyChanges)
      (recordBroadcast (broadcastVia deliverOk))
      (fun _ _ _ w => (Except.ok (), w)) viewerRequest (session0, [])).2.2 =
        [Call.applyChanges "s1" "viewerC" viewerRequest.changes] := by
  decide

/-- C11 (amended): for every `sync_changes` request the handler hands the
change to `CollaborationService.applyChanges` as it arrived, as its first
collaborator call, without validating it.  Validation against the submitter's
role and the structural rules runs inside the merge step before the
Synchronizer: a merge step that returns a result was given a change that
passed validation, and a change that fails validation is rejected with the
validation error and leaves the session unchanged. -/
theorem validation_inside_merge_step {σ ε α β : Type} (message : ε → String)
    (start : String → List String → List (String × String) → σ × List Call →
      Except ε α × (σ × List Call))
    (a : String → String → Change → σ → Except ε MergeResult × σ)
    (b : String → MergeResult → σ → Except ε Unit × σ)
    (manage : String → String → List (String × String) → σ × List Call →
      Except ε β × (σ × List Call))
    (req : Request) (w : σ) (t : List Call) :
    (req.method = "POST" → req.action = "sync_changes" →
      ∃ rest, (handler message start (recordApply a) (recordBroadcast b) manage
        req (w, t)).2.2 =
          t ++ Call.applyChanges req.sessionId req.userId req.changes :: rest) ∧
    (∀ (s s1 : Session) (r : MergeResult),
      CollaborationService.applyChanges req.sessionId req.userId req.changes s = (.ok r, s1) →
        ∃ role, roleOf s req.userId = some role ∧ validate req.changes role = .ok ()) ∧
    (∀ (s : Session) (role : Role) (e : Failure), roleOf s req.userId = some role →
      validate req.changes role = .error e →
        CollaborationService.applyChanges req.sessionId req.userId req.changes s =
          (.error e, s)) := by
  refine ⟨?_, fun s s1 r h => applyChanges_ok_validated _ _ _ s s1 r h,
    fun s role e hr hv => applyChanges_invalid _ _ _ s role e hr hv⟩
  intro hm hact
  unfold handler
  simp only [hm, hact, bne_self_eq_false, Bool.false_eq_true, if_false]
  have hne : ("sync_changes" == "start_collaboration") = false := by decide
  simp only [hne, Bool.false_eq_true, if_false, beq_self_eq_true, if_true]
  unfold syncChanges recordApply recordBroadcast
  rcases ha : a req.sessionId req.userId req.changes w with ⟨e1 | r, w1⟩
  · exact ⟨[], by simp⟩
  · rcases hb : b req.sessionId r w1 with ⟨e2 | u, w2⟩
    · exact ⟨[Call.broadcastChanges req.sessionId r], by simp [hb]⟩
    · exact ⟨[Call.broadcastChanges req.sessionId r], by simp [hb]⟩

/-- Witness for C11 (amended): `viewerC`'s change is rejected inside the merge
step with the validation error and the session is unchanged. -/
theorem validation_inside_merge_step_witness :
    CollaborationService.applyChanges "s1" "viewerC" insertElem1 session0 =
      (.error .permissionDenied, session0) :=
  (validation_inside_merge_step Failure.message
    (fun _ _ _ w => ((Except.ok () : Except Failure Unit), w))
    CollaborationService.applyChanges (broadcastVia deliverOk)
    (fun _ _ _ w => ((Except.ok () : Except Failure Unit), w))
    viewerRequest session0 []).2.2 session0 Role.viewer Failure.permissionDenied
    (by decide) (by decide)

theorem handler_default {σ ε α β : Type} (message : ε → String)
    (start : String → List String → List (String × String) → σ → Except ε α × σ)
    (a : String → String → Change → σ → Except ε MergeResult × σ)
    (b : String → MergeResult → σ → Except ε Unit × σ)
    (manage : String → String → List (String × String) → σ → Except ε β × σ)
    (req : Request) (w : σ)
    (hm : req.method = "POST") (h1 : req.action ≠ "start_collaboration")
    (h2 : req.action ≠ "sync_changes") (h3 : req.action ≠ "manage_permissions") :
    handler message start a b manage req w =
      ({ status := 400, body := .error "Invalid action" }, w) := by
  unfold handler
  simp [hm, h1, h2, h3]

/-- C13: for every POST request whose action is not one of
`start_collaboration`, `sync_changes` or `manage_permissions`, the handler
answers status 400 with error `Invalid action` and leaves the state as it was;
with every collaborator counting its calls (session creation, merge,
broadcast, permission management) the count does not move: no session
operation is executed. -/
theorem unknown_action_rejected {σ ε α β : Type} (message : ε → String)
    (start : String → List String → List (String × String) → σ → Except ε α × σ)
    (a : String → String → Change → σ → Except ε MergeResult × σ)
    (b : String → MergeResult → σ → Except ε Unit × σ)
    (manage : String → String → List (String × String) → σ → Except ε β × σ)
    (req : Request) (w : σ) (n : Nat)
    (hm : req.method = "POST") (h1 : req.action ≠ "start_collaboration")
    (h2 : req.action ≠ "sync_changes") (h3 : req.action ≠ "manage_permissions") :
    handler message start a b manage req w =
      ({ status := 400, body := .error "Invalid action" }, w) ∧
    handler message (countCalls start) (countCalls a) (countBroadcast b) (countCalls manage)
      req (w, n) = ({ status := 400, body := .error "Invalid action" }, (w, n)) :=
  ⟨handler_default message start a b manage req w hm h1 h2 h3,
   handler_default message (countCalls start) (countCalls a) (countBroadcast b)
     (countCalls manage) req (w, n) hm h1 h2 h3⟩

/-- Witness for C13: a POST request with action `close_session`. -/
theorem unknown_action_rejected_witness :
    handler Failure.message startStub CollaborationService.applyChanges
      (broadcastVia deliverOk) manageStub closeRequest session0 =
        ({ status := 400, body := .error "Invalid action" }, session0) ∧
    handler Failure.message (countCalls startStub) (countCalls CollaborationService.applyChanges)
      (countBroadcast (broadcastVia deliverOk)) (countCalls manageStub) closeRequest
      (session0, 0) = ({ status := 400, body := .error "Invalid action" }, (session0, 0)) :=
  unknown_action_rejected Failure.message startStub CollaborationService.applyChanges
    (broadcastVia deliverOk) manageStub closeRequest session0 0
    (by decide) (by decide) (by decide) (by decide)

/-! ## Travel buddies and transaction analysis -/

/-- C14: for every list of compatible travellers and their compatibility
scores, `buddies` is the first 20 entries (all of them when there are fewer)
of the candidate list sorted by `compatibilityScore` in descending order (the
sorted list is a rearrangement of the candidates), and `totalMatches` is the
size of the whole candidate list. -/
theorem buddies_top_twenty {υ φ γ : Type} (filters : φ) (suggestions : γ)
    (score : υ → ℚ) (compatibleUsers : List υ) :
    (∃ sorted : List (Buddy υ),
      sorted.Perm (compatibleUsers.map
        (fun user => { user := user, compatibilityScore := score user })) ∧
      sorted.Pairwise (fun a b => b.compatibilityScore ≤ a.compatibilityScore) ∧
      (findTravelBuddies filters suggestions score compatibleUsers).buddies = sorted.take 20) ∧
    (findTravelBuddies filters suggestions score compatibleUsers).buddies.length =
      min 20 compatibleUsers.length ∧
    (findTravelBuddies filters suggestions score compatibleUsers).totalMatches =
      compatibleUsers.length := by
  have hperm := List.mergeSort_perm
    (compatibleUsers.map (fun user => ({ user := user, compatibilityScore := score user } : Buddy υ)))
    (fun a b => decide (compareBuddies a b ≤ 0))
  have hsorted := @List.sorted_mergeSort (Buddy υ)
    (fun (a b : Buddy υ) => decide (compareBuddies a b ≤ 0))
    (by
      intro a b c hab hbc
      simp only [compareBuddies, decide_eq_true_eq] at hab hbc ⊢
      linarith)
    (by
      intro a b
      simp only [compareBuddies, Bool.or_eq_true, decide_eq_true_eq]
      rcases le_total a.compatibilityScore b.compatibilityScore with h | h
      · right; linarith
      · left; linarith)
    (compatibleUsers.map (fun user => ({ user := user, compatibilityScore := score user } : Buddy υ)))
  have hlen := hperm.length_eq
  refine ⟨⟨_, hperm, ?_, rfl⟩, ?_, ?_⟩
  · refine hsorted.imp ?_
    intro a b hab
    simp only [compareBuddies, decide_eq_true_eq] at hab
    linarith
  · simp only [findTravelBuddies, sortBuddies, List.length_take, hlen, List.length_map]
  · simp only [findTravelBuddies, sortBuddies, hlen, List.length_map]

/-- The four literals are the binary64 values nearest to their decimal
notation: the distance is below half a unit in the last place. -/
theorem literal_values :
    |scaled 6305039478318694 (-53) - 7 / 10| < (2 : ℚ) ^ (-54 : Int) ∧
    |scaled 5404319552844595 (-54) - 3 / 10| < (2 : ℚ) ^ (-55 : Int) ∧
    |scaled 7205759403792794 (-53) - 8 / 10| < (2 : ℚ) ^ (-54 : Int) ∧
    scaled 4503599627370496 (-53) = 1 / 2 := by
  simp only [scaled]
  refine ⟨?_, ?_, ?_, ?_⟩ <;> norm_num [abs_lt]

theorem le_eq_not_gt (x : JSNumber) (m e : Int) (hx : x ≠ JSNumber.nan) :
    x.le (.finite m e) = !x.gt (.finite m e) := by
  cases x with
  | nan => exact absurd rfl hx
  | posInf => rfl
  | negInf => rfl
  | finite m1 e1 =>
    simp only [JSNumber.le, JSNumber.gt]
    by_cases h : scaled m e < scaled m1 e1
    · simp [h, not_le.mpr h]
    · simp [h, not_lt.mp h]

theorem gt_block_gt_review (x : JSNumber) (h : x.gt blockThreshold = true) :
    x.gt reviewThreshold = true := by
  cases x with
  | nan => cases h
  | posInf => rfl
  | negInf => cases h
  | finite m e =>
    simp only [JSNumber.gt, blockThreshold, reviewThreshold, decide_eq_true_eq] at h ⊢
    have : scaled 4503599627370496 (-53) < scaled 7205759403792794 (-53) := by
      norm_num [scaled]
    exact this.trans h

theorem roundToDouble_ne_nan (m e : Int) : roundToDouble m e ≠ JSNumber.nan := by
  unfold roundToDouble
  simp only
  split_ifs <;> simp

theorem roundToDouble_ne_negInf (m e : Int) (h : 0 ≤ m) :
    roundToDouble m e ≠ JSNumber.negInf := by
  rcases h.lt_or_eq with hm | hm
  · unfold roundToDouble
    simp only [hm, if_true]
    split_ifs <;> simp
  · subst hm
    have h2 : ∀ k : Nat, ¬ (0 = 2 ^ k) := fun k hk => absurd hk.symm (by positivity)
    unfold roundToDouble
    simp [h2]

/-- Scores that are finite and not negative never combine to NaN. -/
theorem riskScore_number_of_nonneg (m1 e1 m2 e2 : Int) (h1 : 0 ≤ m1) (h2 : 0 ≤ m2) :
    ((JSNumber.finite m1 e1).mul weightML).add ((JSNumber.finite m2 e2).mul weightRules) ≠
      JSNumber.nan := by
  have ha : (JSNumber.finite m1 e1).mul weightML =
      roundToDouble (m1 * 6305039478318694) (e1 + -53) := rfl
  have hb : (JSNumber.finite m2 e2).mul weightRules =
      roundToDouble (m2 * 5404319552844595) (e2 + -54) := rfl
  rw [ha, hb]
  have na := roundToDouble_ne_nan (m1 * 6305039478318694) (e1 + -53)
  have nb := roundToDouble_ne_nan (m2 * 5404319552844595) (e2 + -54)
  have ia := roundToDouble_ne_negInf (m1 * 6305039478318694) (e1 + -53) (by positivity)
  have ib := roundToDouble_ne_negInf (m2 * 5404319552844595) (e2 + -54) (by positivity)
  generalize roundToDouble (m1 * 6305039478318694) (e1 + -53) = a at na ia
  generalize roundToDouble (m2 * 5404319552844595) (e2 + -54) = b at nb ib
  cases a <;> cases b <;> simp_all [JSNumber.add, roundToDouble_ne_nan]

/-- C15: in `analyzeTransaction`, with the arithmetic of JavaScript numbers
(binary64), the risk score is the sum of the ML fraud score times 0.7 and the
rule-based score times 0.3, and whenever that risk score is a number (not NaN)
the decision returned is `blocked` (reason `High fraud risk detected`) iff the
risk score is > 0.8, `review` iff it is > 0.5 and <= 0.8, and `approved` iff
it is <= 0.5, so exactly one of the three; and the function does return
whenever logging the analysis and getting the recommendations succeed. -/
theorem decision_follows_risk_score {ε ρ : Type}
    (logAnalysis : JSNumber → Decision → Except ε Unit)
    (getRecommendations : JSNumber → Except ε ρ) (mlScore ruleScore : JSNumber)
    (hnum : (mlScore.mul weightML).add (ruleScore.mul weightRules) ≠ JSNumber.nan) :
    (∀ r, analyzeTransaction logAnalysis getRecommendations mlScore ruleScore = .ok r →
      r.riskScore = (mlScore.mul weightML).add (ruleScore.mul weightRules) ∧
      (r.decision = Decision.blocked ↔ r.riskScore.gt blockThreshold = true) ∧
      (r.decision = Decision.review ↔
        (r.riskScore.gt reviewThreshold = true ∧ r.riskScore.le blockThreshold = true)) ∧
      (r.decision = Decision.approved ↔ r.riskScore.le reviewThreshold = true) ∧
      (r.decision = Decision.blocked → r.reason = "High fraud risk detected")) ∧
    ((∀ x d, logAnalysis x d = .ok ()) → (∀ x, ∃ recs, getRecommendations x = .ok recs) →
      ∃ r, analyzeTransaction logAnalysis getRecommendations mlScore ruleScore = .ok r) := by
  constructor
  · intro r h
    unfold analyzeTransaction at h
    simp only at h
    split at h
    · cases h
    · split at h
      · cases h
      · simp only [Except.ok.injEq] at h
        subst h
        simp only
        have hle8 := le_eq_not_gt _ 7205759403792794 (-53) hnum
        have hle5 := le_eq_not_gt _ 4503599627370496 (-53) hnum
        refine ⟨trivial, ?_⟩
        rw [show blockThreshold = JSNumber.finite 7205759403792794 (-53) from rfl,
          show reviewThreshold = JSNumber.finite 4503599627370496 (-53) from rfl] 
        rw [hle8, hle5]
        cases h1 : ((mlScore.mul weightML).add (ruleScore.mul weightRules)).gt
            (JSNumber.finite 7205759403792794 (-53))
        · cases h2 : ((mlScore.mul weightML).add (ruleScore.mul weightRules)).gt
              (JSNumber.finite 4503599627370496 (-53))
          · simp
          · simp
        · have h2 := gt_block_gt_review _ h1
          rw [show reviewThreshold = JSNumber.finite 4503599627370496 (-53) from rfl] at h2
          rw [h2]
          simp
  · intro hlog hrec
    obtain ⟨recs, hr⟩ := hrec ((mlScore.mul weightML).add (ruleScore.mul weightRules))
    unfold analyzeTransaction
    simp only [hlog, hr]
    exact ⟨_, rfl⟩

set_option maxRecDepth 8000

/-- Witness for C15: with both scores 0.8 the risk score is
0.7999999999999999 and the decision is `review`; with both scores
0.5000000000000001 the risk score is 0.5 and the decision is `approved`. -/
theorem decision_follows_risk_score_witness :
    (∃ r : Analysis Unit,
      analyzeTransaction logQuietly recommendNothing blockThreshold blockThreshold = .ok r ∧
      r.riskScore = JSNumber.finite 7205759403792793 (-53) ∧
      r.decision = Decision.review) ∧
    (∃ r : Analysis Unit,
      analyzeTransaction logQuietly recommendNothing scoreAboveHalf scoreAboveHalf = .ok r ∧
      r.riskScore = JSNumber.finite 4503599627370496 (-53) ∧
      r.decision = Decision.approved) := by
  have v1 : (blockThreshold.mul weightML).add (blockThreshold.mul weightRules) =
      JSNumber.finite 7205759403792793 (-53) := by decide
  have v2 : (scoreAboveHalf.mul weightML).add (scoreAboveHalf.mul weightRules) =
      JSNumber.finite 4503599627370496 (-53) := by decide
  have t1 := decision_follows_risk_score logQuietly recommendNothing blockThreshold
    blockThreshold (by rw [v1]; simp)
  have t2 := decision_follows_risk_score logQuietly recommendNothing scoreAboveHalf
    scoreAboveHalf (by rw [v2]; simp)
  obtain ⟨r1, h1⟩ := t1.2 (fun _ _ => rfl) (fun _ => ⟨(), rfl⟩)
  obtain ⟨r2, h2⟩ := t2.2 (fun _ _ => rfl) (fun _ => ⟨(), rfl⟩)
  obtain ⟨e1, -, rev, -, -⟩ := t1.1 r1 h1
  obtain ⟨e2, -, -, app, -⟩ := t2.1 r2 h2
  rw [v1] at e1
  rw [v2] at e2
  refine ⟨⟨r1, h1, e1, rev.mpr ?_⟩, ⟨r2, h2, e2, app.mpr ?_⟩⟩
  · rw [e1]
    norm_num [JSNumber.gt, JSNumber.le, reviewThreshold, blockThreshold, scaled]
  · rw [e2]
    norm_num [JSNumber.le, reviewThreshold, scaled]

/-! ## Joining a community and sending notifications -/

/-- C16: for an existing community of which the user is already a member,
`joinTravelCommunity` returns success = false with the message `Already a
member of this community` and leaves every table and record as it was (no
membership created, no welcome message sent, no points awarded); for a
community id that does not exist it fails with `Community not found` and
leaves everything as it was. -/
theorem join_refused_without_effect
    (sendWelcomeMessage : String → Community → Except String Unit)
    (awardPoints : String → String → Nat → Except String Unit)
    (getWelcomeMessage : Community → Except String String)
    (getSuggestedActions : String → Community → Except String (List String))
    (now : Nat) (userId communityId : String) (w : CommunityWorld) :
    (∀ community member,
      w.communities.find? (fun c => c.id == communityId) = some community →
      w.members.find? (fun m => m.userId == userId && m.communityId == communityId) =
        some member →
      joinTravelCommunity sendWelcomeMessage awardPoints getWelcomeMessage getSuggestedActions
        now userId communityId w =
          (.ok (.refused false "Already a member of this community"), w)) ∧
    (w.communities.find? (fun c => c.id == communityId) = none →
      joinTravelCommunity sendWelcomeMessage awardPoints getWelcomeMessage getSuggestedActions
        now userId communityId w = (.error "Community not found", w)) := by
  constructor
  · intro community member hc hm
    unfold joinTravelCommunity
    rw [hc]
    dsimp only
    rw [hm]
  · intro hc
    unfold joinTravelCommunity
    rw [hc]

/-- Witness for C16: `ownerA` joins `c1` again, and `editorB` joins a
community that does not exist. -/
theorem join_refused_without_effect_witness :
    joinTravelCommunity (fun _ _ => .ok ()) (fun _ _ _ => .ok ()) (fun _ => .ok "Welcome")
      (fun _ _ => .ok []) 7 "ownerA" "c1" communityWorld =
        (.ok (.refused false "Already a member of this community"), communityWorld) ∧
    joinTravelCommunity (fun _ _ => .ok ()) (fun _ _ _ => .ok ()) (fun _ => .ok "Welcome")
      (fun _ _ => .ok []) 7 "editorB" "c9" communityWorld =
        (.error "Community not found", communityWorld) :=
  ⟨(join_refused_without_effect (fun _ _ => .ok ()) (fun _ _ _ => .ok ())
      (fun _ => .ok "Welcome") (fun _ _ => .ok []) 7 "ownerA" "c1" communityWorld).1
      { id := "c1", name := "Backpackers" }
      { userId := "ownerA", communityId := "c1", role := "member", joinedAt := 0 }
      (by decide) (by decide),
   (join_refused_without_effect (fun _ _ => .ok ()) (fun _ _ _ => .ok ())
      (fun _ => .ok "Welcome") (fun _ _ => .ok []) 7 "editorB" "c9" communityWorld).2
      (by decide)⟩

/-- What `send` does when every recipient has a user row: one notification
per recipient in recipient order, an email unless `notifications.email` is
exactly false, a push unless `notifications.push` is exactly false. -/
theorem sendLoop_existing_users (type title message senderId : String)
    (recipients : List String) (acc : List Notification) (w : NotifyWorld)
    (h : ∀ r ∈ recipients, (w.users.find? (fun u => u.id == r)).isSome = true) :
    NotificationService.sendLoop type title message senderId recipients acc w =
      (.ok (acc ++ recipients.map (fun r =>
          { userId := r, type := type, title := title, content := message,
            senderId := senderId })),
       { w with
         notifications := w.notifications ++ recipients.map (fun r =>
           { userId := r, type := type, title := title, content := message,
             senderId := senderId })
         emails := w.emails ++ (recipients.filter (fun r =>
             emailWanted (w.users.find? (fun u => u.id == r)))).filterMap (fun r =>
               (w.users.find? (fun u => u.id == r)).map (fun u => (u.email, title)))
         pushes := w.pushes ++ (recipients.filter (fun r =>
             pushWanted (w.users.find? (fun u => u.id == r)))).map (fun r => (r, title)) }) := by
  induction recipients generalizing acc w with
  | nil => simp [NotificationService.sendLoop]
  | cons r rest ih =>
    have hr := h r (List.mem_cons_self _ _)
    have hrest : ∀ x ∈ rest, (w.users.find? (fun u => u.id == x)).isSome = true :=
      fun x hx => h x (List.mem_cons_of_mem _ hx)
    obtain ⟨u, hu⟩ := Option.isSome_iff_exists.mp hr
    unfold NotificationService.sendLoop
    simp only [hu]
    by_cases he : emailWanted (some u) = true
    · by_cases hp : pushWanted (some u) = true
      · simp only [he, hp, if_true]
        refine (ih _ _ ?_).trans ?_
        · exact hrest
        · simp [List.filter_cons, hu, he, hp]
      · simp only [he, hp, if_true, if_false]
        refine (ih _ _ ?_).trans ?_
        · exact hrest
        · simp [List.filter_cons, hu, he, hp]
    · by_cases hp : pushWanted (some u) = true
      · simp only [he, hp, if_true, if_false]
        refine (ih _ _ ?_).trans ?_
        · exact hrest
        · simp [List.filter_cons, hu, he, hp]
      · simp only [he, hp, if_false]
        refine (ih _ _ ?_).trans ?_
        · exact hrest
        · simp [List.filter_cons, hu, he, hp]

/-- C17 (failing input): for a recipient without a user row the preferences
are unset, so the email test is true and `send` reads `user.email` of `null`:
it throws after creating the recipient's notification, sends neither email
nor push, returns no notification list and never reaches the recipients that
follow. -/
theorem send_throws_for_missing_user :
    NotificationService.send "alert" "Gate change" "Gate B12" "system"
      ["ghost", "ownerA"] notifyWorld =
      (.error "TypeError: Cannot read properties of null (reading 'email')",
       { notifyWorld with
         notifications :=
           [{ userId := "ghost", type := "alert", title := "Gate change",
              content := "Gate B12", senderId := "system" }] }) := by
  decide

/-! ## Catalogue search -/

theorem includes_iff (text part : String) :
    includes text part = true ↔ part.data <:+: text.data := by
  unfold includes
  rw [decide_eq_true_eq]

theorem slice_filter_props {α : Type} (catalogue : List α) (p : α → Bool) (page limit : Nat) :
    (∀ x ∈ slice (catalogue.filter p) ((page - 1) * limit) (page * limit), p x = true) ∧
    (slice (catalogue.filter p) ((page - 1) * limit) (page * limit)).Sublist catalogue ∧
    (catalogue.length ≤ limit → slice (catalogue.filter p) ((1 - 1) * limit) (1 * limit) =
      catalogue.filter p) := by
  have hsub : (slice (catalogue.filter p) ((page - 1) * limit) (page * limit)).Sublist
      (catalogue.filter p) :=
    (List.drop_sublist _ _).trans (List.take_sublist _ _)
  refine ⟨fun x hx => (List.mem_filter.mp (hsub.subset hx)).2,
    hsub.trans (List.filter_sublist _), ?_⟩
  intro hlen
  have hle : (catalogue.filter p).length ≤ 1 * limit := by
    have := List.length_filter_le p catalogue
    omega
  simp only [slice, Nat.sub_self, Nat.zero_mul, List.drop_zero]
  exact List.take_of_length_le hle

theorem destinationMatches_iff (toLowerCase : String → String) (query : String)
    (d : Destination) :
    destinationMatches toLowerCase query d = true ↔
      ((toLowerCase query).data <:+: (toLowerCase d.name).data ∨
        (toLowerCase query).data <:+: (toLowerCase d.country).data) := by
  unfold destinationMatches
  rw [Bool.or_eq_true, includes_iff, includes_iff]

theorem activityMatches_iff (toLowerCase : String → String) (query : String)
    (a : Activity) :
    activityMatches toLowerCase query a = true ↔
      ((toLowerCase query).data <:+: (toLowerCase a.name).data ∨
        (toLowerCase query).data <:+: (toLowerCase a.destination).data) := by
  unfold activityMatches
  rw [Bool.or_eq_true, includes_iff, includes_iff]

/-- C18: for every query, page and limit (the lower-casing function being any
function), every destination returned by `searchDestinations` has a name or a
country of which the query is a contiguous part once both are lower-cased, the
results are catalogue entries in catalogue order, and with page = 1 and
limit >= 5 every catalogue destination whose name or country contains the
query in that way is returned; the same holds for `searchActivities` over
activity name and destination. -/
theorem search_returns_matches (toLowerCase : String → String) (query : String)
    (page limit : Nat) :
    ((∀ d ∈ SearchService.searchDestinations toLowerCase query page limit,
        (toLowerCase query).data <:+: (toLowerCase d.name).data ∨
        (toLowerCase query).data <:+: (toLowerCase d.country).data) ∧
      (SearchService.searchDestinations toLowerCase query page limit).Sublist
        popularDestinations ∧
      (5 ≤ limit → ∀ d ∈ popularDestinations,
        ((toLowerCase query).data <:+: (toLowerCase d.name).data ∨
          (toLowerCase query).data <:+: (toLowerCase d.country).data) →
        d ∈ SearchService.searchDestinations toLowerCase query 1 limit)) ∧
    ((∀ a ∈ SearchService.searchActivities toLowerCase query page limit,
        (toLowerCase query).data <:+: (toLowerCase a.name).data ∨
        (toLowerCase query).data <:+: (toLowerCase a.destination).data) ∧
      (SearchService.searchActivities toLowerCase query page limit).Sublist sampleActivities ∧
      (5 ≤ limit → ∀ a ∈ sampleActivities,
        ((toLowerCase query).data <:+: (toLowerCase a.name).data ∨
          (toLowerCase query).data <:+: (toLowerCase a.destination).data) →
        a ∈ SearchService.searchActivities toLowerCase query 1 limit)) := by
  have hd := slice_filter_props popularDestinations (destinationMatches toLowerCase query)
    page limit
  have ha := slice_filter_props sampleActivities (activityMatches toLowerCase query)
    page limit
  refine ⟨⟨fun d hd1 => (destinationMatches_iff toLowerCase query d).mp (hd.1 d hd1), hd.2.1,
      fun h5 d hmem hmatch => ?_⟩,
    ⟨fun a ha1 => (activityMatches_iff toLowerCase query a).mp (ha.1 a ha1), ha.2.1,
      fun h5 a hmem hmatch => ?_⟩⟩
  · unfold SearchService.searchDestinations
    rw [hd.2.2 h5]
    exact List.mem_filter.mpr ⟨hmem, (destinationMatches_iff toLowerCase query d).mpr hmatch⟩
  · unfold SearchService.searchActivities
    rw [ha.2.2 h5]
    exact List.mem_filter.mpr ⟨hmem, (activityMatches_iff toLowerCase query a).mpr hmatch⟩

/-- Witness for C18: the query `TOKYO` on page 1 with limit 5.  The destination
search returns `Tokyo, Japan` alone and the activity search returns `Sushi
Making Class` (destination `Tokyo`) alone. -/
theorem search_returns_matches_witness :
    (SearchService.searchDestinations lowerAscii "TOKYO" 1 5).map Destination.name =
      ["Tokyo, Japan"] ∧
    (SearchService.searchActivities lowerAscii "TOKYO" 1 5).map Activity.name =
      ["Sushi Making Class"] ∧
    ({ name := "Tokyo, Japan", country := "Japan", type := "city", rating := 49 / 10 } :
      Destination) ∈ SearchService.searchDestinations lowerAscii "TOKYO" 1 5 ∧
    ({ name := "Sushi Making Class", destination := "Tokyo", type := "cultural", price := 80 } :
      Activity) ∈ SearchService.searchActivities lowerAscii "TOKYO" 1 5 :=
  ⟨by decide, by decide,
   (search_returns_matches lowerAscii "TOKYO" 1 5).1.2.2 (by decide) _
     (List.mem_cons_of_mem _ (List.mem_cons_self _ _)) (Or.inl (by decide)),
   (search_returns_matches lowerAscii "TOKYO" 1 5).2.2.2 (by decide) _
     (List.mem_cons_of_mem _ (List.mem_cons_self _ _)) (Or.inr (by decide))⟩

/-! ## Session cleanup -/

theorem find_filter_of_imp {α : Type} (l : List α) (p q : α → Bool)
    (h : ∀ e, q e = true → p e = true) : (l.filter p).find? q = l.find? q := by
  induction l with
  | nil => rfl
  | cons e rest ih =>
    cases hpe : p e
    · have hqe : q e = false := by
        cases hq : q e
        · rfl
        · have := h e hq
          rw [hpe] at this
          cases this
      simp only [List.filter_cons, hpe, List.find?_cons, hqe]
      simpa using ih
    · simp only [List.filter_cons, hpe, List.find?_cons, if_true]
      cases hq : q e
      · simpa using ih
      · rfl

theorem redisGet_del_ne (store : List (String × StoredValue)) (k k2 : String) (h : k2 ≠ k) :
    redisGet (redisDel store k) k2 = redisGet store k2 := by
  unfold redisGet redisDel
  rw [find_filter_of_imp]
  intro e he
  have h1 : e.1 = k2 := by simpa using he
  have h2 : ¬ e.1 = k := fun h3 => h (h1.symm.trans h3)
  simpa using h2

theorem expiredKey_del_ne (parseDate : String → Option Int) (now : Int)
    (store : List (String × StoredValue)) (k k2 : String)
    (h : k2 ≠ k) :
    expiredKey parseDate now (redisDel store k) k2 = expiredKey parseDate now store k2 := by
  unfold expiredKey
  rw [redisGet_del_ne store k k2 h]

theorem readable_del_ne (store : List (String × StoredValue)) (k k2 : String) (h : k2 ≠ k) :
    readable (redisDel store k) k2 = readable store k2 := by
  unfold readable
  rw [redisGet_del_ne store k k2 h]

theorem takeWhile_congr_mem {α : Type} (l : List α) (p q : α → Bool)
    (h : ∀ x ∈ l, p x = q x) : l.takeWhile p = l.takeWhile q := by
  induction l with
  | nil => rfl
  | cons x rest ih =>
    simp only [List.takeWhile_cons, h x (List.mem_cons_self _ _),
      ih (fun y hy => h y (List.mem_cons_of_mem _ hy))]

theorem all_congr_mem {α : Type} (l : List α) (p q : α → Bool)
    (h : ∀ x ∈ l, p x = q x) : l.all p = l.all q := by
  induction l with
  | nil => rfl
  | cons x rest ih =>
    simp only [List.all_cons, h x (List.mem_cons_self _ _),
      ih (fun y hy => h y (List.mem_cons_of_mem _ hy))]

theorem redisGet_of_mem (store : List (String × StoredValue)) (e : String × StoredValue)
    (hnd : (store.map (fun x => x.1)).Nodup) (he : e ∈ store) :
    redisGet store e.1 = some e.2 := by
  unfold redisGet
  induction store with
  | nil => cases he
  | cons x rest ih =>
    simp only [List.map_cons, List.nodup_cons] at hnd
    rcases List.mem_cons.mp he with rfl | hmem
    · simp [List.find?_cons]
    · have hne : ¬ x.1 = e.1 := by
        intro hx
        exact hnd.1 (hx ▸ List.mem_map_of_mem (fun y => y.1) hmem)
      simp only [List.find?_cons]
      have hb : (x.1 == e.1) = false := by simpa using hne
      rw [hb]
      exact ih hnd.2 hmem

theorem cleanupLoop_skip (parseDate : String → Option Int) (now : Int)
    (store : List (String × StoredValue)) (k : String)
    (ks : List String) (n : Nat) (h : expiredKey parseDate now store k = false) :
    n + (ks.filter (expiredKey parseDate now store)).length =
      n + ((k :: ks).filter (expiredKey parseDate now store)).length ∧
    store.filter (fun e => !(decide (e.1 ∈ ks) && expiredKey parseDate now store e.1)) =
      store.filter (fun e => !(decide (e.1 ∈ k :: ks) && expiredKey parseDate now store e.1)) := by
  have h1 : (k :: ks).filter (expiredKey parseDate now store) =
      ks.filter (expiredKey parseDate now store) := by
    simp [List.filter_cons, h]
  have h2 : store.filter (fun e => !(decide (e.1 ∈ ks) && expiredKey parseDate now store e.1)) =
      store.filter
        (fun e => !(decide (e.1 ∈ k :: ks) && expiredKey parseDate now store e.1)) := by
    apply List.filter_congr
    intro e _
    by_cases hek : e.1 = k
    · simp [hek, h]
    · simp [hek]
  rw [h1]
  exact ⟨rfl, h2⟩

theorem cleanupLoop_delete (parseDate : String → Option Int) (now : Int)
    (store : List (String × StoredValue)) (k : String)
    (ks : List String) (n : Nat) (h : expiredKey parseDate now store k = true) (hk : k ∉ ks) :
    n + 1 + (ks.filter (expiredKey parseDate now (redisDel store k))).length =
      n + ((k :: ks).filter (expiredKey parseDate now store)).length ∧
    (redisDel store k).filter
        (fun e => !(decide (e.1 ∈ ks) && expiredKey parseDate now (redisDel store k) e.1)) =
      store.filter
        (fun e => !(decide (e.1 ∈ k :: ks) && expiredKey parseDate now store e.1)) := by
  have h0 : ks.filter (expiredKey parseDate now (redisDel store k)) =
      ks.filter (expiredKey parseDate now store) := by
    apply List.filter_congr
    intro k2 hk2
    exact expiredKey_del_ne parseDate now store k k2 (fun heq => hk (heq ▸ hk2))
  have h1 : (k :: ks).filter (expiredKey parseDate now store) =
      k :: ks.filter (expiredKey parseDate now store) := by
    simp [List.filter_cons, h]
  have h2 : (redisDel store k).filter
        (fun e => !(decide (e.1 ∈ ks) && expiredKey parseDate now (redisDel store k) e.1)) =
      store.filter
        (fun e => !(decide (e.1 ∈ k :: ks) && expiredKey parseDate now store e.1)) := by
    unfold redisDel
    rw [List.filter_filter]
    apply List.filter_congr
    intro e _
    by_cases hek : e.1 = k
    · simp [hek, h]
    · have := expiredKey_del_ne parseDate now store k e.1 hek
      unfold redisDel at this
      simp [hek, this]
  rw [h0, h1, List.length_cons]
  exact ⟨by omega, h2⟩

/-- The loop goes through the keys up to the first one whose value makes the
body throw, deletes the expired entries among them, and reports a count only
when it reached the end of the keys. -/
theorem cleanupLoop_spec (parseDate : String → Option Int) (now : Int) (ks : List String)
    (store : List (String × StoredValue)) (n : Nat) (hnd : ks.Nodup) :
    cleanupLoop parseDate now ks store n =
      (if ks.all (readable store) = true then
         some (n + ((ks.takeWhile (readable store)).filter
           (expiredKey parseDate now store)).length)
       else none,
       store.filter (fun e => !(decide (e.1 ∈ ks.takeWhile (readable store)) &&
         expiredKey parseDate now store e.1))) := by
  induction ks generalizing store n with
  | nil => simp [cleanupLoop]
  | cons k ks ih =>
    have hk : k ∉ ks := (List.nodup_cons.mp hnd).1
    have hnd2 : ks.Nodup := (List.nodup_cons.mp hnd).2
    have hktw : ∀ st : List (String × StoredValue), k ∉ ks.takeWhile (readable st) :=
      fun st h => hk ((List.takeWhile_sublist _).subset h)
    have skip : redisGet store k ≠ some StoredValue.malformed →
        expiredKey parseDate now store k = false →
        cleanupLoop parseDate now ks store n =
          (if (k :: ks).all (readable store) = true then
             some (n + (((k :: ks).takeWhile (readable store)).filter
               (expiredKey parseDate now store)).length)
           else none,
           store.filter (fun e => !(decide (e.1 ∈ (k :: ks).takeWhile (readable store)) &&
             expiredKey parseDate now store e.1))) := by
      intro hr hx
      have hr2 : readable store k = true := by simpa [readable] using hr
      obtain ⟨c1, c2⟩ := cleanupLoop_skip parseDate now store k
        (ks.takeWhile (readable store)) n hx
      rw [ih store n hnd2]
      simp only [List.takeWhile_cons, hr2, List.all_cons, Bool.true_and, if_true]
      rw [c1, c2]
    unfold cleanupLoop
    rcases hget : redisGet store k with _ | v
    · simp only
      exact skip (by simp [hget]) (by simp [expiredKey, hget])
    · cases v with
      | empty =>
        simp only
        exact skip (by simp [hget]) (by simp [expiredKey, hget, expired])
      | malformed =>
        have hr2 : readable store k = false := by simp [readable, hget]
        simp [List.takeWhile_cons, hr2]
      | session expiresAt =>
        simp only
        by_cases hexp : expired parseDate now (StoredValue.session expiresAt) = true
        · rw [if_pos hexp]
          have hr2 : readable store k = true := by simp [readable, hget]
          have hrd : ∀ k2 ∈ ks, readable (redisDel store k) k2 = readable store k2 :=
            fun k2 h2 => readable_del_ne store k k2 (fun heq => hk (heq ▸ h2))
          obtain ⟨c1, c2⟩ := cleanupLoop_delete parseDate now store k
            (ks.takeWhile (readable store)) n (by simp [expiredKey, hget, hexp]) (hktw store)
          rw [ih (redisDel store k) (n + 1) hnd2,
            takeWhile_congr_mem ks _ _ hrd, all_congr_mem ks _ _ hrd]
          simp only [List.takeWhile_cons, hr2, List.all_cons, Bool.true_and, if_true]
          rw [c1, c2]
        · rw [if_neg hexp]
          exact skip (by simp [hget]) (by simp [expiredKey, hget, hexp])

/-- Counterexample to C19 as stated: with an unparseable value under
`session:a`, the run stops at that entry: the entry `session:b`, whose
`expiresAt` (1) is earlier than the current time (10), is not deleted and no
count is reported. -/
theorem cleanup_stops_at_unparseable_entry :
    expired parseIso 10 (StoredValue.session (.number (.finite 1 0))) = true ∧
    cleanupExpiredSessions parseIso 10 brokenStore = (none, brokenStore) := by
  decide

/-- C19 (amended): for every store with distinct keys, every current time and
every date parser, `cleanupExpiredSessions` gets through the `session:*` keys
in order up to the first one whose value makes the loop body throw.  It
leaves exactly the entries that are not an expired entry among the keys it got
through, in place; an entry is expired when `new Date` turns its `expiresAt`
into a valid date earlier than the current time.  It reports a count only when
no `session:*` value makes the body throw, and the count is then the number of
entries deleted.  In that case the entries deleted are exactly the expired
`session:*` entries. -/
theorem cleanup_deletes_expired (parseDate : String → Option Int) (now : Int)
    (store : List (String × StoredValue))
    (hnd : (store.map (fun e => e.1)).Nodup) :
    (cleanupExpiredSessions parseDate now store).2 =
      store.filter (fun e =>
        !(decide (e.1 ∈ (redisKeys store).takeWhile
            (fun k => redisGet store k != some StoredValue.malformed)) &&
          expired parseDate now e.2)) ∧
    (cleanupExpiredSessions parseDate now store).1 =
      (if (redisKeys store).all (fun k => redisGet store k != some StoredValue.malformed) = true
       then some (store.length - (cleanupExpiredSessions parseDate now store).2.length)
       else none) ∧
    ((∀ e ∈ store, isSessionKey e.1 = true → e.2 ≠ StoredValue.malformed) →
      cleanupExpiredSessions parseDate now store =
        (some (store.filter (fun e => isSessionKey e.1 && expired parseDate now e.2)).length,
         store.filter (fun e => !(isSessionKey e.1 && expired parseDate now e.2)))) ∧
    (∀ x, expired parseDate now (StoredValue.session x) = true ↔
      ∃ t, dateValue parseDate x = some t ∧ t < now) := by
  have hkeys_nd : (redisKeys store).Nodup := by
    unfold redisKeys
    exact hnd.sublist ((List.filter_sublist store).map (fun e => e.1))
  have hmem_keys : ∀ e ∈ store, (e.1 ∈ redisKeys store ↔ isSessionKey e.1 = true) := by
    intro e _
    unfold redisKeys
    constructor
    · intro h
      obtain ⟨x, hx, hxe⟩ := List.mem_map.mp h
      have := (List.mem_filter.mp hx).2
      rw [← hxe]
      exact this
    · intro h
      exact List.mem_map.mpr ⟨e, List.mem_filter.mpr ⟨‹e ∈ store›, h⟩, rfl⟩
  have hexp : ∀ e ∈ store, expiredKey parseDate now store e.1 = expired parseDate now e.2 := by
    intro e he
    unfold expiredKey
    rw [redisGet_of_mem store e hnd he]
  have hspec := cleanupLoop_spec parseDate now (redisKeys store) store 0 hkeys_nd
  have hfun : readable store = fun k => redisGet store k != some StoredValue.malformed := rfl
  rw [hfun] at hspec
  have hstoreA : (cleanupExpiredSessions parseDate now store).2 =
      store.filter (fun e =>
        !(decide (e.1 ∈ (redisKeys store).takeWhile
            (fun k => redisGet store k != some StoredValue.malformed)) &&
          expired parseDate now e.2)) := by
    unfold cleanupExpiredSessions
    rw [hspec]
    apply List.filter_congr
    intro e he
    rw [hexp e he]
  have hcount : ((redisKeys store).filter (expiredKey parseDate now store)).length =
      (store.filter (fun e => isSessionKey e.1 && expired parseDate now e.2)).length := by
    unfold redisKeys
    rw [List.filter_map, List.length_map, List.filter_filter]
    congr 1
    apply List.filter_congr
    intro e he
    simp only [Function.comp]
    rw [hexp e he, Bool.and_comm]
  have hstore : store.filter
        (fun e => !(decide (e.1 ∈ redisKeys store) && expiredKey parseDate now store e.1)) =
      store.filter (fun e => !(isSessionKey e.1 && expired parseDate now e.2)) := by
    apply List.filter_congr
    intro e he
    rw [hexp e he]
    by_cases hs : isSessionKey e.1 = true
    · simp [hs, (hmem_keys e he).mpr hs]
    · have : e.1 ∉ redisKeys store := fun h => hs ((hmem_keys e he).mp h)
      simp [hs, this]
  have hall_case :
      (redisKeys store).all (fun k => redisGet store k != some StoredValue.malformed) = true →
      cleanupExpiredSessions parseDate now store =
        (some (store.filter (fun e => isSessionKey e.1 && expired parseDate now e.2)).length,
         store.filter (fun e => !(isSessionKey e.1 && expired parseDate now e.2))) := by
    intro hall
    have htw : (redisKeys store).takeWhile
        (fun k => redisGet store k != some StoredValue.malformed) = redisKeys store := by
      rw [List.takeWhile_eq_self_iff]
      exact List.all_eq_true.mp hall
    unfold cleanupExpiredSessions
    rw [hspec, if_pos hall, htw, hcount, hstore, Nat.zero_add]
  refine ⟨hstoreA, ?_, ?_, ?_⟩
  · by_cases hall :
      (redisKeys store).all (fun k => redisGet store k != some StoredValue.malformed) = true
    · rw [if_pos hall, hall_case hall]
      have hsplit := List.length_eq_length_filter_add (l := store)
        (fun e : String × StoredValue => isSessionKey e.1 && expired parseDate now e.2)
      simp only at hsplit ⊢
      congr 1
      omega
    · rw [if_neg hall]
      unfold cleanupExpiredSessions
      rw [hspec, if_neg hall]
  · intro hparse
    apply hall_case
    rw [List.all_eq_true]
    intro k hk
    unfold redisKeys at hk
    obtain ⟨x, hx, hxe⟩ := List.mem_map.mp hk
    have hxs := (List.mem_filter.mp hx).1
    rw [← hxe, redisGet_of_mem store x hnd hxs]
    have := hparse x hxs (List.mem_filter.mp hx).2
    simpa using this
  · intro x
    rcases hd : dateValue parseDate x with _ | t <;> simp [expired, hd]

/-- Witness for C19 (amended).  At time 10 the expired `session:a`, the entry
`session:c` whose `expiresAt` is `null` (the epoch) and `session:e` with its
parsed date are deleted; the live `session:b`, `session:d` without `expiresAt`
and the entry `cache:x` stay; the count is 3.  In the store with an unparseable
value under `session:b`, `session:a` is deleted, `session:c` stays and no count
is reported. -/
theorem cleanup_deletes_expired_witness :
    cleanupExpiredSessions parseIso 10 sessionStore =
      (some 3, [("session:b", StoredValue.session (.number (.finite 99 0))),
                ("session:d", StoredValue.session .missing),
                ("cache:x", StoredValue.session (.number (.finite 1 0)))]) ∧
    (cleanupExpiredSessions parseIso 10 mixedStore).2 =
      [("session:b", StoredValue.malformed),
       ("session:c", StoredValue.session (.number (.finite 2 0)))] ∧
    (cleanupExpiredSessions parseIso 10 mixedStore).1 = none :=
  ⟨(cleanup_deletes_expired parseIso 10 sessionStore (by decide)).2.2.1 (by decide),
   (cleanup_deletes_expired parseIso 10 mixedStore (by decide)).1,
   (cleanup_deletes_expired parseIso 10 mixedStore (by decide)).2.1⟩

/-! ## Sensor recommendations -/

theorem advice_distinct :
    coldAdvice ≠ heatAdvice ∧ coldAdvice ≠ airAdvice ∧ coldAdvice ≠ noiseAdvice ∧
    heatAdvice ≠ airAdvice ∧ heatAdvice ≠ noiseAdvice ∧ airAdvice ≠ noiseAdvice := by
  decide

/-- What the recommendation list holds when temperature and humidity are both
present and neither is 0: the claim of C20 holds for such readings. -/
theorem recommendations_for_nonzero_readings (calculateComfortIndex : ℚ → ℚ → ℚ)
    (sensorData : SensorData) (temperature humidity : ℚ)
    (ht : sensorData.temperature = some temperature) (hh : sensorData.humidity = some humidity)
    (ht0 : temperature ≠ 0) (hh0 : humidity ≠ 0) :
    (coldAdvice ∈ processSensorData calculateComfortIndex sensorData ↔
      calculateComfortIndex temperature humidity < 30) ∧
    (heatAdvice ∈ processSensorData calculateComfortIndex sensorData ↔
      calculateComfortIndex temperature humidity > 80) ∧
    ¬ (coldAdvice ∈ processSensorData calculateComfortIndex sensorData ∧
        heatAdvice ∈ processSensorData calculateComfortIndex sensorData) ∧
    (airAdvice ∈ processSensorData calculateComfortIndex sensorData ↔
      ∃ airQuality aqi, sensorData.airQuality = some airQuality ∧ airQuality.aqi = some aqi ∧
        aqi > 150) ∧
    (noiseAdvice ∈ processSensorData calculateComfortIndex sensorData ↔
      ∃ noiseLevel, sensorData.noiseLevel = some noiseLevel ∧ noiseLevel > 85) := by
  obtain ⟨d1, d2, d3, d4, d5, d6⟩ := advice_distinct
  have hc : comfortAdvice calculateComfortIndex sensorData =
      if calculateComfortIndex temperature humidity < 30 then [coldAdvice]
      else if calculateComfortIndex temperature humidity > 80 then [heatAdvice] else [] := by
    unfold comfortAdvice
    rw [ht, hh]
    simp [truthy, ht0, hh0]
  have ha : ∀ x, x ≠ airAdvice → x ∉ airQualityAdvice sensorData := by
    intro x hx
    unfold airQualityAdvice
    split
    · split
      · split <;> simp [hx]
      · simp
    · simp
  have hn : ∀ x, x ≠ noiseAdvice → x ∉ noiseLevelAdvice sensorData := by
    intro x hx
    unfold noiseLevelAdvice
    split
    · split <;> simp [hx]
    · simp
  have hair : airAdvice ∈ airQualityAdvice sensorData ↔
      ∃ airQuality aqi, sensorData.airQuality = some airQuality ∧ airQuality.aqi = some aqi ∧
        aqi > 150 := by
    unfold airQualityAdvice
    rcases h1 : sensorData.airQuality with _ | aq
    · simp
    · rcases h2 : aq.aqi with _ | v
      · simp [h2]
      · by_cases h3 : v > 150
        · simp [h2, h3]
        · simp [h2, h3]
  have hnoise : noiseAdvice ∈ noiseLevelAdvice sensorData ↔
      ∃ noiseLevel, sensorData.noiseLevel = some noiseLevel ∧ noiseLevel > 85 := by
    unfold noiseLevelAdvice
    rcases h1 : sensorData.noiseLevel with _ | v
    · simp
    · by_cases h3 : v > 85
      · simp [h3]
      · simp [h3]
  have hcold : coldAdvice ∈ comfortAdvice calculateComfortIndex sensorData ↔
      calculateComfortIndex temperature humidity < 30 := by
    rw [hc]
    by_cases h1 : calculateComfortIndex temperature humidity < 30
    · simp [h1]
    · by_cases h2 : calculateComfortIndex temperature humidity > 80
      · simp [h1, h2, d1]
      · simp [h1, h2]
  have hheat : heatAdvice ∈ comfortAdvice calculateComfortIndex sensorData ↔
      calculateComfortIndex temperature humidity > 80 := by
    rw [hc]
    by_cases h1 : calculateComfortIndex temperature humidity < 30
    · have h2 : ¬ calculateComfortIndex temperature humidity > 80 := by
        intro h; linarith
      simp [h1, h2, Ne.symm d1]
    · by_cases h2 : calculateComfortIndex temperature humidity > 80
      · simp [h1, h2]
      · simp [h1, h2]
  have hcomfort_air : airAdvice ∉ comfortAdvice calculateComfortIndex sensorData := by
    rw [hc]
    split
    · simp [Ne.symm d2]
    · split
      · simp [Ne.symm d4]
      · simp
  have hcomfort_noise : noiseAdvice ∉ comfortAdvice calculateComfortIndex sensorData := by
    rw [hc]
    split
    · simp [Ne.symm d3]
    · split
      · simp [Ne.symm d5]
      · simp
  unfold processSensorData
  simp only [List.mem_append]
  refine ⟨?_, ?_, ?_, ?_, ?_⟩
  · rw [← hcold]
    constructor
    · rintro ((h | h) | h)
      · exact h
      · exact absurd h (ha _ d2)
      · exact absurd h (hn _ d3)
    · intro h
      exact Or.inl (Or.inl h)
  · rw [← hheat]
    constructor
    · rintro ((h | h) | h)
      · exact h
      · exact absurd h (ha _ d4)
      · exact absurd h (hn _ d5)
    · intro h
      exact Or.inl (Or.inl h)
  · rintro ⟨(h1 | h1) | h1, (h2 | h2) | h2⟩
    · have := hcold.mp h1
      have := hheat.mp h2
      linarith
    · exact ha _ d4 h2
    · exact hn _ d5 h2
    · exact ha _ d2 h1
    · exact ha _ d2 h1
    · exact ha _ d2 h1
    · exact hn _ d3 h1
    · exact hn _ d3 h1
    · exact hn _ d3 h1
  · rw [← hair]
    constructor
    · rintro ((h | h) | h)
      · exact absurd h hcomfort_air
      · exact h
      · exact absurd h (hn _ d6)
    · intro h
      exact Or.inl (Or.inr h)
  · rw [← hnoise]
    constructor
    · rintro ((h | h) | h)
      · exact absurd h hcomfort_noise
      · exact absurd h (ha _ (Ne.symm d6))
      · exact h
    · intro h
      exact Or.inr h

/-- C20 (failing input): with a temperature reading of 0 and a humidity
reading of 50, both present and numeric, the comfort index is never computed
and the list holds no advice, whatever the comfort index is: the cold advice
is missing also when the index of that reading is below 30. -/
theorem zero_temperature_gets_no_advice (calculateComfortIndex : ℚ → ℚ → ℚ) :
    processSensorData calculateComfortIndex freezingReading = [] ∧
    coldAdvice ∉ processSensorData calculateComfortIndex freezingReading := by
  have h : processSensorData calculateComfortIndex freezingReading = [] := by
    simp [processSensorData, comfortAdvice, airQualityAdvice, noiseLevelAdvice,
      freezingReading, truthy]
  exact ⟨h, by rw [h]; simp⟩

/-! ## Stripe webhook -/

/-- C22: a request whose method is not POST is answered 405; a POST request
whose signature verification fails is answered 400 with code
`INVALID_SIGNATURE`; a POST request with a verified event of a type that is
none of the five handled ones is answered 200 with `received: true`.  In all
three cases the state is returned as it was: no payment or subscription
handler was entered and no booking, carbon-offset or user record changed. -/
theorem webhook_rejections_change_nothing
    (constructEvent : String → Option String → String → Except String StripeEvent)
    (endpointSecret : String) (req : WebhookRequest) (w : WebhookWorld) :
    (req.method ≠ "POST" →
      StripeWebhook.handler constructEvent endpointSecret req w =
        ({ status := 405, body := .error "Method not allowed" "METHOD_NOT_ALLOWED" }, w)) ∧
    (∀ e, req.method = "POST" →
      constructEvent req.body req.signature endpointSecret = .error e →
      StripeWebhook.handler constructEvent endpointSecret req w =
        ({ status := 400,
           body := .error "Webhook signature verification failed" "INVALID_SIGNATURE" }, w)) ∧
    (∀ event, req.method = "POST" →
      constructEvent req.body req.signature endpointSecret = .ok event →
      event.type ≠ "payment_intent.succeeded" →
      event.type ≠ "payment_intent.payment_failed" →
      event.type ≠ "customer.subscription.created" →
      event.type ≠ "customer.subscription.updated" →
      event.type ≠ "customer.subscription.deleted" →
      StripeWebhook.handler constructEvent endpointSecret req w =
        ({ status := 200, body := .success true }, w)) := by
  refine ⟨?_, ?_, ?_⟩
  · intro hm
    unfold StripeWebhook.handler
    simp [hm]
  · intro e hm he
    unfold StripeWebhook.handler
    simp [hm, he]
  · intro event hm he h1 h2 h3 h4 h5
    unfold StripeWebhook.handler dispatchEvent
    simp [hm, he, h1, h2, h3, h4, h5]

/-- Witness for C22: a GET request, a POST request with a bad signature and a
verified `charge.refunded` event, each on a database with pending records. -/
theorem webhook_rejections_change_nothing_witness :
    StripeWebhook.handler checkSignature "whsec"
      { method := "GET", body := "payment_intent.succeeded", signature := some "good" }
      webhookWorld =
        ({ status := 405, body := .error "Method not allowed" "METHOD_NOT_ALLOWED" },
         webhookWorld) ∧
    StripeWebhook.handler checkSignature "whsec"
      { method := "POST", body := "payment_intent.succeeded", signature := some "forged" }
      webhookWorld =
        ({ status := 400,
           body := .error "Webhook signature verification failed" "INVALID_SIGNATURE" },
         webhookWorld) ∧
    StripeWebhook.handler checkSignature "whsec"
      { method := "POST", body := "charge.refunded", signature := some "good" }
      webhookWorld = ({ status := 200, body := .success true }, webhookWorld) :=
  ⟨(webhook_rejections_change_nothing checkSignature "whsec"
      { method := "GET", body := "payment_intent.succeeded", signature := some "good" }
      webhookWorld).1 (by decide),
   (webhook_rejections_change_nothing checkSignature "whsec"
      { method := "POST", body := "payment_intent.succeeded", signature := some "forged" }
      webhookWorld).2.1 "No signatures found matching the expected signature for payload"
      (by decide) (by decide),
   (webhook_rejections_change_nothing checkSignature "whsec"
      { method := "POST", body := "charge.refunded", signature := some "good" }
      webhookWorld).2.2
      { type := "charge.refunded"
        object := { id := "pi_1", metadata := some { userId := "ownerA", type := "booking" },
                    customer := "cus_1", priceId := none } }
      (by decide) (by decide) (by decide) (by decide) (by decide) (by decide) (by decide)⟩

/-! ## Email template -/

/-- The template holds the title, the message and the action address exactly
as they were passed in. -/
theorem template_holds_inputs_verbatim (frontendUrl title message : String)
    (data : Option EmailData) :
    includes (NotificationService.generateEmailTemplate frontendUrl title message data)
      title = true ∧
    includes (NotificationService.generateEmailTemplate frontendUrl title message data)
      message = true ∧
    (∀ actionUrl, data = some { actionUrl := some actionUrl } → actionUrl ≠ "" →
      includes (NotificationService.generateEmailTemplate frontendUrl title message data)
        actionUrl = true) := by
  refine ⟨?_, ?_, ?_⟩
  · unfold includes
    rw [decide_eq_true_eq]
    refine ⟨templateHead.data,
      (templateAfterTitle ++ title ++ templateAfterHeading ++ message ++
        templateAfterMessage ++ actionLink data ++ templateAfterLink ++ frontendUrl ++
        templateAfterUnsubscribe ++ frontendUrl ++ templateTail).data, ?_⟩
    simp [NotificationService.generateEmailTemplate, String.data_append, List.append_assoc]
  · unfold includes
    rw [decide_eq_true_eq]
    refine ⟨(templateHead ++ title ++ templateAfterTitle ++ title ++ templateAfterHeading).data,
      (templateAfterMessage ++ actionLink data ++ templateAfterLink ++ frontendUrl ++
        templateAfterUnsubscribe ++ frontendUrl ++ templateTail).data, ?_⟩
    simp [NotificationService.generateEmailTemplate, String.data_append, List.append_assoc]
  · intro actionUrl hd hne
    unfold includes
    rw [decide_eq_true_eq]
    have hlink : actionLink data =
        "<a href=\"" ++ actionUrl ++ "\" class=\"button\">View Details</a>" := by
      rw [hd]
      simp [actionLink, hne]
    refine ⟨(templateHead ++ title ++ templateAfterTitle ++ title ++ templateAfterHeading ++
        message ++ templateAfterMessage ++ "<a href=\"").data,
      ("\" class=\"button\">View Details</a>" ++ templateAfterLink ++ frontendUrl ++
        templateAfterUnsubscribe ++ frontendUrl ++ templateTail).data, ?_⟩
    simp [NotificationService.generateEmailTemplate, hlink, String.data_append,
      List.append_assoc]

/-- C21 (failing input): for a title, a message and an action address that
carry markup, the HTML returned by `generateEmailTemplate` contains each of
them verbatim, with `<`, `>` and the double quote unescaped. -/
theorem template_keeps_markup_raw :
    includes (NotificationService.generateEmailTemplate "https://app.example" scriptTitle
      imageMessage (some { actionUrl := some quoteUrl })) "<script>alert(1)</script>" = true ∧
    includes (NotificationService.generateEmailTemplate "https://app.example" scriptTitle
      imageMessage (some { actionUrl := some quoteUrl })) "<img src=x onerror=alert(2)>" = true ∧
    includes (NotificationService.generateEmailTemplate "https://app.example" scriptTitle
      imageMessage (some { actionUrl := some quoteUrl })) "\"><script>alert(3)</script>" = true :=
  ⟨(template_holds_inputs_verbatim "https://app.example" scriptTitle imageMessage
      (some { actionUrl := some quoteUrl })).1,
   (template_holds_inputs_verbatim "https://app.example" scriptTitle imageMessage
      (some { actionUrl := some quoteUrl })).2.1,
   (template_holds_inputs_verbatim "https://app.example" scriptTitle imageMessage
      (some { actionUrl := some quoteUrl })).2.2 quoteUrl rfl (by decide)⟩

end TravelMate
